import Mathlib

/-!
Shallow embedding of the polluxkart admin backend
(src/backend/services/admin_service.py, src/backend/routes/admin.py,
src/backend/models/admin.py) in Lean 4.

Modelling conventions:
* Python floats are modelled as rationals (ℚ), Python ints as ℤ,
  `datetime` values as integer timestamps (ℤ).
* A MongoDB collection is a list of documents; `find_one` is `List.find?`,
  `insert_one` appends, `delete_one` removes the first match, `update_one`
  rewrites the first match and reports `matched`/`modified` counts.
* Python truthiness (`if promotion.get("usage_limit")`) is modelled
  explicitly: `None` and `0` are falsy, any other number is truthy.
* A service method that can `raise ValueError` is a function
  `Store → Except String α × Store` (the `DbM` monad below); the route layer
  maps errors to HTTP status codes.
* `str.upper()` / `str.lower()` are modelled on their ASCII fragment,
  which is the fragment exercised by promotion codes and brand names.
-/

set_option autoImplicit false

namespace Polluxkart

/-- ASCII uppercase of one character, as Python `str.upper()` acts on ASCII. -/
def pyToUpperChar (c : Char) : Char :=
  if 97 ≤ c.toNat ∧ c.toNat ≤ 122 then Char.ofNat (c.toNat - 32) else c

/-- ASCII lowercase of one character, as Python `str.lower()` acts on ASCII. -/
def pyToLowerChar (c : Char) : Char :=
  if 65 ≤ c.toNat ∧ c.toNat ≤ 90 then Char.ofNat (c.toNat + 32) else c

/-- Python `s.upper()` (ASCII fragment). -/
def pyUpper (s : String) : String := ⟨s.data.map pyToUpperChar⟩

/-- Python `s.lower()` (ASCII fragment). -/
def pyLower (s : String) : String := ⟨s.data.map pyToLowerChar⟩

/-- Python truthiness of an optional float: `None` and `0.0` are falsy. -/
def truthyOptQ : Option ℚ → Bool
  | none => false
  | some v => decide (v ≠ 0)

/-- Python truthiness of an optional int: `None` and `0` are falsy. -/
def truthyOptInt : Option ℤ → Bool
  | none => false
  | some v => decide (v ≠ 0)

/-- Python truthiness of an optional string: `None` and `""` are falsy. -/
def truthyOptStr : Option String → Bool
  | none => false
  | some s => decide (s ≠ "")

/-- Round-half-to-even on rationals, the rounding mode of Python `round`. -/
def roundHalfEven (x : ℚ) : ℤ :=
  let f := Int.floor x
  let r := x - f
  if r < 1 / 2 then f
  else if 1 / 2 < r then f + 1
  else if f % 2 = 0 then f else f + 1

/-- Python `round(x, 2)`. -/
def round2 (x : ℚ) : ℚ := (roundHalfEven (x * 100) : ℚ) / 100

/-- `PromotionStatus.ACTIVE.value` from models/admin.py. -/
def promotionStatusActive : String := "active"

/-- A document of the `promotions` collection, as built by
`create_promotion` in admin_service.py. -/
structure Promotion where
  id : String
  code : String
  description : Option String
  discount_type : String
  discount_value : ℚ
  min_order_amount : Option ℚ
  max_discount : Option ℚ
  usage_limit : Option ℤ
  per_user_limit : ℤ
  times_used : ℤ
  start_date : Option ℤ
  end_date : Option ℤ
  applicable_categories : List String
  applicable_products : List String
  status : String
  created_at : ℤ
  updated_at : ℤ
deriving DecidableEq, Repr

/-- A document of the `products` collection. -/
structure Product where
  id : String
  name : String
  description : Option String
  price : ℚ
  original_price : Option ℚ
  category_id : String
  brand : Option String
  sku : String
  stock : ℤ
  images : List String
  features : List String
  rating : ℚ
  review_count : ℤ
  is_active : Bool
  created_at : ℤ
  updated_at : ℤ
deriving DecidableEq, Repr

/-- A document of the `categories` collection. -/
structure Category where
  id : String
  name : String
  description : Option String
  image : Option String
  parent_id : Option String
  is_active : Bool
  product_count : ℤ
  created_at : ℤ
  updated_at : ℤ
deriving DecidableEq, Repr

/-- A document of the `brands` collection. -/
structure Brand where
  id : String
  name : String
  description : Option String
  logo : Option String
  website : Option String
  is_active : Bool
  product_count : ℤ
  created_at : ℤ
  updated_at : ℤ
deriving DecidableEq, Repr

/-- A document of the `orders` collection (the fields touched by
`update_order_status`). -/
structure Order where
  id : String
  status : String
  tracking_number : Option String
  delivered_at : Option ℤ
  created_at : ℤ
  updated_at : ℤ
deriving DecidableEq, Repr

/-- A document of the `users` collection (the fields `update_user_role`
touches; the password hash, which every read projects away, is not
modelled). -/
structure User where
  id : String
  email : String
  name : String
  role : String
  created_at : ℤ
  updated_at : ℤ
deriving DecidableEq, Repr

/-- The document store: the collections the admin service touches. -/
structure Store where
  products : List Product
  categories : List Category
  brands : List Brand
  promotions : List Promotion
  orders : List Order
  users : List User
deriving DecidableEq, Repr

/-- A database action: it may raise a `ValueError` (modelled as a message)
and it transforms the store. -/
@[reducible] def DbM (α : Type) := Store → Except String α × Store

instance : Monad DbM where
  pure a := fun st => (Except.ok a, st)
  bind m f := fun st =>
    match m st with
    | (Except.ok a, st') => f a st'
    | (Except.error e, st') => (Except.error e, st')

/-- `raise ValueError(msg)`. -/
def dbRaise {α : Type} (msg : String) : DbM α := fun st => (Except.error msg, st)

/-- `self.db.promotions.find_one({"code": code})` — a read, never a write. -/
def findOnePromotionByCode (code : String) : DbM (Option Promotion) :=
  fun st => (Except.ok (st.promotions.find? fun p => p.code == code), st)

/-- The discount dict returned by a successful `validate_promotion`. -/
structure DiscountResult where
  promotion_id : String
  code : String
  discount : ℚ
  discount_type : String
  discount_value : ℚ
deriving DecidableEq, Repr

/-- Error message of the minimum-order check (the ₹ amount
interpolation is modelled with `toString`). -/
def minOrderMsg (m : ℚ) : String := "Minimum order amount is " ++ toString m

/-- `AdminService.validate_promotion` (admin_service.py lines 263-300),
with the current time `now` passed explicitly.  The guards on
`start_date`/`end_date`/`usage_limit`/`min_order_amount`/`max_discount`
follow Python truthiness (`promotion.get(k) and …`); `datetime` values are
always truthy, numbers are truthy iff nonzero. -/
def validate_promotion (code : String) (order_total : ℚ) (user_id : String)
    (now : ℤ) : DbM DiscountResult := do
  let promo? ← findOnePromotionByCode (pyUpper code)
  match promo? with
  | none => dbRaise "Invalid promotion code"
  | some promotion =>
    if promotion.status ≠ promotionStatusActive then
      dbRaise "Promotion is not active"
    else if promotion.start_date.elim false fun s => decide (now < s) then
      dbRaise "Promotion has not started yet"
    else if promotion.end_date.elim false fun e => decide (e < now) then
      dbRaise "Promotion has expired"
    else if truthyOptInt promotion.usage_limit &&
        promotion.usage_limit.elim false fun l => decide (l ≤ promotion.times_used) then
      dbRaise "Promotion usage limit reached"
    else if truthyOptQ promotion.min_order_amount &&
        promotion.min_order_amount.elim false fun m => decide (order_total < m) then
      dbRaise (minOrderMsg (promotion.min_order_amount.getD 0))
    else
      let discount : ℚ :=
        if promotion.discount_type = "percentage" then
          let d := order_total * (promotion.discount_value / 100)
          if truthyOptQ promotion.max_discount then
            min d (promotion.max_discount.getD 0)
          else d
        else promotion.discount_value
      pure {
        promotion_id := promotion.id
        code := promotion.code
        discount := round2 discount
        discount_type := promotion.discount_type
        discount_value := promotion.discount_value
      }

/-- `self.db.products.count_documents({"category_id": category_id})`. -/
def countProductsByCategoryId (category_id : String) : DbM ℕ := fun st =>
  (Except.ok (st.products.countP fun p => p.category_id == category_id), st)

/-- `self.db.categories.delete_one({"id": category_id})`; the result is
`deleted_count > 0`, i.e. whether a matching document existed. -/
def deleteOneCategory (category_id : String) : DbM Bool := fun st =>
  (Except.ok (st.categories.any fun c => c.id == category_id),
   { st with categories := st.categories.eraseP fun c => c.id == category_id })

/-- `AdminService.delete_category` (admin_service.py lines 172-180). -/
def delete_category (category_id : String) : DbM Bool := do
  let product_count ← countProductsByCategoryId category_id
  if product_count > 0 then
    dbRaise ("Cannot delete category with " ++ toString product_count ++ " products")
  else
    deleteOneCategory category_id

/-- `self.db.brands.find_one({"id": brand_id})`. -/
def findOneBrandById (brand_id : String) : DbM (Option Brand) := fun st =>
  (Except.ok (st.brands.find? fun b => b.id == brand_id), st)

/-- `self.db.products.count_documents({"brand": name})`. -/
def countProductsByBrandName (name : String) : DbM ℕ := fun st =>
  (Except.ok (st.products.countP fun p => p.brand == some name), st)

/-- `self.db.brands.delete_one({"id": brand_id})`. -/
def deleteOneBrand (brand_id : String) : DbM Bool := fun st =>
  (Except.ok (st.brands.any fun b => b.id == brand_id),
   { st with brands := st.brands.eraseP fun b => b.id == brand_id })

/-- `AdminService.delete_brand` (admin_service.py lines 451-463). -/
def delete_brand (brand_id : String) : DbM Bool := do
  let brand? ← findOneBrandById brand_id
  match brand? with
  | none => pure false
  | some brand => do
    let product_count ← countProductsByBrandName brand.name
    if product_count > 0 then
      dbRaise ("Cannot delete brand with " ++ toString product_count ++
        " products. Please reassign products first.")
    else
      deleteOneBrand brand_id

/-- Fuel-indexed backtracking matcher for the regex fragment with literal
characters, `.`, and postfix `*`, matching the whole string (the service
always anchors its interpolated patterns as `^name$`).  Fuel
`p.length + s.length + 1` always suffices because every recursive call
strictly shrinks `p.length + s.length`. -/
def rmatchFuel : ℕ → List Char → List Char → Bool
  | 0, _, _ => false
  | _ + 1, [], s => s.isEmpty
  | n + 1, c :: '*' :: ps, s =>
    rmatchFuel n ps s ||
      (match s with
       | [] => false
       | x :: xs => (c == '.' || x == c) && rmatchFuel n (c :: '*' :: ps) xs)
  | _ + 1, _ :: _, [] => false
  | n + 1, c :: ps, x :: xs => (c == '.' || x == c) && rmatchFuel n ps xs

/-- Mongo `{"name": {"$regex": f"^{pat}$", "$options": "i"}}` as the service
builds it: the raw name `pat` is interpolated, unescaped, into an anchored
case-insensitive regex. -/
def regexFullMatchI (pat s : String) : Bool :=
  rmatchFuel ((pyLower pat).data.length + (pyLower s).data.length + 1)
    (pyLower pat).data (pyLower s).data

/-- `BrandCreate` from models/admin.py. -/
structure BrandCreate where
  name : String
  description : Option String
  logo : Option String
  website : Option String
  is_active : Bool
deriving DecidableEq, Repr

/-- `self.db.brands.find_one({"name": {"$regex": f"^{name}$", "$options": "i"}})`. -/
def findOneBrandByNameRegexI (name : String) : DbM (Option Brand) := fun st =>
  (Except.ok (st.brands.find? fun b => regexFullMatchI name b.name), st)

/-- `self.db.brands.insert_one(brand)`. -/
def insertOneBrand (b : Brand) : DbM Unit := fun st =>
  (Except.ok (), { st with brands := st.brands ++ [b] })

/-- `AdminService.create_brand` (admin_service.py lines 401-422), with the
generated uuid and current time passed explicitly. -/
def create_brand (brand_data : BrandCreate) (new_id : String) (now : ℤ) : DbM Brand := do
  let existing ← findOneBrandByNameRegexI brand_data.name
  match existing with
  | some _ => dbRaise "Brand with this name already exists"
  | none => do
    let brand : Brand := {
      id := new_id
      name := brand_data.name
      description := brand_data.description
      logo := brand_data.logo
      website := brand_data.website
      is_active := brand_data.is_active
      product_count := 0
      created_at := now
      updated_at := now }
    insertOneBrand brand
    pure brand

/-- `PromotionCreate` from models/admin.py (`discount_type` holds a
`DiscountType` enum value, `"percentage"` or `"fixed"`). -/
structure PromotionCreate where
  code : String
  description : Option String
  discount_type : String
  discount_value : ℚ
  min_order_amount : Option ℚ
  max_discount : Option ℚ
  usage_limit : Option ℤ
  per_user_limit : ℤ
  start_date : Option ℤ
  end_date : Option ℤ
  applicable_categories : List String
  applicable_products : List String
deriving DecidableEq, Repr

/-- `self.db.promotions.insert_one(promotion)`. -/
def insertOnePromotion (p : Promotion) : DbM Unit := fun st =>
  (Except.ok (), { st with promotions := st.promotions ++ [p] })

/-- `AdminService.create_promotion` (admin_service.py lines 193-222). -/
def create_promotion (promo_data : PromotionCreate) (new_id : String) (now : ℤ) :
    DbM Promotion := do
  let existing ← findOnePromotionByCode (pyUpper promo_data.code)
  match existing with
  | some _ => dbRaise "Promotion code already exists"
  | none => do
    let promotion : Promotion := {
      id := new_id
      code := pyUpper promo_data.code
      description := promo_data.description
      discount_type := promo_data.discount_type
      discount_value := promo_data.discount_value
      min_order_amount := promo_data.min_order_amount
      max_discount := promo_data.max_discount
      usage_limit := promo_data.usage_limit
      per_user_limit := promo_data.per_user_limit
      times_used := 0
      start_date := promo_data.start_date
      end_date := promo_data.end_date
      applicable_categories := promo_data.applicable_categories
      applicable_products := promo_data.applicable_products
      status := promotionStatusActive
      created_at := now
      updated_at := now }
    insertOnePromotion promotion
    pure promotion

/-- `ProductUpdate` from models/admin.py: every field optional; `None`
fields are dropped from the `$set` document. -/
structure ProductUpdate where
  name : Option String
  description : Option String
  price : Option ℚ
  original_price : Option ℚ
  category_id : Option String
  brand : Option String
  sku : Option String
  stock : Option ℤ
  images : Option (List String)
  features : Option (List String)
  is_active : Option Bool
deriving DecidableEq, Repr

/-- `not update_dict`: every payload field is `None`, so the filtered
`$set` document is empty. -/
def ProductUpdate.isEmptyUpdate (u : ProductUpdate) : Bool :=
  u.name.isNone && u.description.isNone && u.price.isNone &&
  u.original_price.isNone && u.category_id.isNone && u.brand.isNone &&
  u.sku.isNone && u.stock.isNone && u.images.isNone && u.features.isNone &&
  u.is_active.isNone

/-- `$set` of a present payload field over a required document field. -/
def setReq {α : Type} (new : Option α) (cur : α) : α := new.getD cur

/-- `$set` of a present payload field over an optional document field. -/
def setOpt {α : Type} (new : Option α) (cur : Option α) : Option α :=
  match new with
  | some v => some v
  | none => cur

/-- The effect of `{"$set": update_dict}` on one product document, where
`update_dict` holds the non-`None` payload fields plus `updated_at = now`. -/
def applyProductSet (u : ProductUpdate) (now : ℤ) (p : Product) : Product :=
  { p with
    name := setReq u.name p.name
    description := setOpt u.description p.description
    price := setReq u.price p.price
    original_price := setOpt u.original_price p.original_price
    category_id := setReq u.category_id p.category_id
    brand := setOpt u.brand p.brand
    sku := setReq u.sku p.sku
    stock := setReq u.stock p.stock
    images := setReq u.images p.images
    features := setReq u.features p.features
    is_active := setReq u.is_active p.is_active
    updated_at := now }

/-- Replace the first element satisfying `q` by its image under `f`. -/
def replaceFirstBy {α : Type} (q : α → Bool) (f : α → α) : List α → List α
  | [] => []
  | x :: xs => if q x then f x :: xs else x :: replaceFirstBy q f xs

/-- `self.db.products.update_one({"id": id}, {"$set": …})`: at most one
document matches; the result is `(matched_count > 0, modified_count > 0)`.
`modified_count` counts only documents the `$set` actually changed. -/
def updateOneProductById (product_id : String) (f : Product → Product) :
    DbM (Bool × Bool) := fun st =>
  match st.products.find? fun p => p.id == product_id with
  | none => (Except.ok (false, false), st)
  | some p =>
    (Except.ok (true, decide (f p ≠ p)),
     { st with products := replaceFirstBy (fun q => q.id == product_id) f st.products })

/-- The dict returned by `_get_product_with_category`: the product document
plus, when its category exists, the category name. -/
structure ProductWithCategory where
  product : Product
  category_name : Option String
deriving DecidableEq, Repr

/-- `AdminService._get_product_with_category` (admin_service.py lines
126-133); `product.get("category_id")` is Python-truthy iff the id string
is nonempty. -/
def get_product_with_category (product_id : String) :
    DbM (Option ProductWithCategory) := fun st =>
  match st.products.find? fun p => p.id == product_id with
  | none => (Except.ok none, st)
  | some p =>
    if p.category_id ≠ "" then
      match st.categories.find? fun c => c.id == p.category_id with
      | some c => (Except.ok (some ⟨p, some c.name⟩), st)
      | none => (Except.ok (some ⟨p, none⟩), st)
    else (Except.ok (some ⟨p, none⟩), st)

/-- `AdminService.update_product` (admin_service.py lines 93-116).  The
inventory side effect on a stock change touches only the (unmodelled)
inventory collection and no claim mentions it. -/
def update_product (product_id : String) (update_data : ProductUpdate) (now : ℤ) :
    DbM (Option ProductWithCategory) := do
  if update_data.isEmptyUpdate then
    get_product_with_category product_id
  else do
    let counts ← updateOneProductById product_id (applyProductSet update_data now)
    if counts.2 = false then pure none
    else get_product_with_category product_id

/-- An HTTPException: status code and detail string. -/
structure HTTPError where
  status_code : ℕ
  detail : String
deriving DecidableEq, Repr

/-- The `PUT /admin/products/{product_id}` handler (routes/admin.py lines
253-263): a `None` service result becomes 404. -/
def route_update_product (product_id : String) (update_data : ProductUpdate)
    (now : ℤ) : Store → Except HTTPError ProductWithCategory × Store := fun st =>
  match update_product product_id update_data now st with
  | (Except.ok (some product), st') => (Except.ok product, st')
  | (Except.ok none, st') => (Except.error ⟨404, "Product not found"⟩, st')
  | (Except.error e, st') => (Except.error ⟨500, e⟩, st')

/-- Modelled from the spec: `OrderStatus.DELIVERED.value` lives in
models/order.py, which is not among the provided sources; the admin code
only compares order statuses for string equality, so the exact value does
not affect the properties proved here. -/
def orderStatusDelivered : String := "delivered"

/-- The `$set` document built by `update_order_status`: always `status` and
`updated_at`, plus `tracking_number` when that argument is truthy and
`delivered_at` when the new status is the delivered one. -/
def applyOrderStatusSet (status : String) (tracking_number : Option String)
    (now : ℤ) (o : Order) : Order :=
  { o with
    status := status
    updated_at := now
    tracking_number :=
      if truthyOptStr tracking_number then tracking_number else o.tracking_number
    delivered_at :=
      if status = orderStatusDelivered then some now else o.delivered_at }

/-- `self.db.orders.update_one({"id": id}, {"$set": …})`. -/
def updateOneOrderById (order_id : String) (f : Order → Order) :
    DbM (Bool × Bool) := fun st =>
  match st.orders.find? fun o => o.id == order_id with
  | none => (Except.ok (false, false), st)
  | some o =>
    (Except.ok (true, decide (f o ≠ o)),
     { st with orders := replaceFirstBy (fun q => q.id == order_id) f st.orders })

/-- `self.db.orders.find_one({"id": order_id})`. -/
def findOneOrderById (order_id : String) : DbM (Option Order) := fun st =>
  (Except.ok (st.orders.find? fun o => o.id == order_id), st)

/-- `AdminService.update_order_status` (admin_service.py lines 337-358). -/
def update_order_status (order_id : String) (status : String)
    (tracking_number : Option String) (now : ℤ) : DbM (Option Order) := do
  let counts ← updateOneOrderById order_id (applyOrderStatusSet status tracking_number now)
  if counts.2 = false then pure none
  else findOneOrderById order_id

/-- The allowed image content types of the upload endpoints. -/
def allowedImageTypes : List String :=
  ["image/jpeg", "image/png", "image/webp", "image/gif"]

/-- An uploaded file: its client filename, declared content type, and the
byte length of its content. -/
structure UploadFile where
  filename : String
  content_type : String
  size : ℕ
deriving DecidableEq, Repr

/-- `ImageUploadResponse` from models/admin.py. -/
structure ImageUploadResponse where
  url : String
  filename : String
  size : ℕ
  content_type : String
deriving DecidableEq, Repr

/-- Python `str.split(".")` on the character list of a filename. -/
def splitOnDot : List Char → List (List Char)
  | [] => [[]]
  | c :: cs =>
    if c = '.' then [] :: splitOnDot cs
    else
      match splitOnDot cs with
      | [] => [[c]]
      | g :: gs => (c :: g) :: gs

/-- `file.filename.split(".")[-1] if "." in file.filename else "jpg"`. -/
def extOf (name : String) : String :=
  if name.data.contains '.' then ⟨(splitOnDot name.data).getLastD []⟩ else "jpg"

/-- The stored filename and response for one accepted file; `hex` stands
for the generated `uuid4().hex`. -/
def mkUploadResponse (hex : String) (f : UploadFile) : ImageUploadResponse :=
  let filename := hex ++ "." ++ extOf f.filename
  { url := "/api/uploads/" ++ filename
    filename := filename
    size := f.size
    content_type := f.content_type }

/-- The 5MB upload size limit. -/
def maxUploadBytes : ℕ := 5 * 1024 * 1024

/-- A file passes upload validation: allowed content type and size within
the 5MB limit. -/
def isValidUpload (f : UploadFile) : Bool :=
  allowedImageTypes.contains f.content_type && decide (f.size ≤ maxUploadBytes)

/-- The `POST /admin/upload` handler (routes/admin.py lines 166-203), with
the generated uuid hex passed explicitly. -/
def upload_image (hex : String) (f : UploadFile) :
    Except HTTPError ImageUploadResponse :=
  if ¬ allowedImageTypes.contains f.content_type then
    Except.error ⟨400,
      "File type not allowed. Allowed: image/jpeg, image/png, image/webp, image/gif"⟩
  else if maxUploadBytes < f.size then
    Except.error ⟨400, "File size exceeds 5MB limit"⟩
  else
    Except.ok (mkUploadResponse hex f)

/-- The body of the `for file in files` loop of `upload_multiple_images`:
a file with a disallowed type or an oversized content is skipped
(`continue`); an accepted file is stored under the next generated uuid hex
(`gen k` is the hex for the k-th accepted file). -/
def uploadLoop (gen : ℕ → String) : ℕ → List UploadFile → List ImageUploadResponse
  | _, [] => []
  | k, f :: fs =>
    if ¬ allowedImageTypes.contains f.content_type then uploadLoop gen k fs
    else if maxUploadBytes < f.size then uploadLoop gen k fs
    else mkUploadResponse (gen k) f :: uploadLoop gen (k + 1) fs

/-- The `POST /admin/upload/multiple` handler (routes/admin.py lines
205-242). -/
def upload_multiple_images (gen : ℕ → String) (files : List UploadFile) :
    Except HTTPError (List ImageUploadResponse) :=
  if files.length > 10 then
    Except.error ⟨400, "Maximum 10 files allowed per upload"⟩
  else
    Except.ok (uploadLoop gen 0 files)

deriving instance DecidableEq for Except

/-- Condition under which the start-date check of `validate_promotion`
raises: a start date is present and lies strictly in the future. -/
def startCheckFails (p : Promotion) (now : ℤ) : Prop :=
  ∃ s, p.start_date = some s ∧ now < s

/-- Condition under which the end-date check raises: an end date is present
and lies strictly in the past. -/
def endCheckFails (p : Promotion) (now : ℤ) : Prop :=
  ∃ e, p.end_date = some e ∧ e < now

/-- Condition under which the usage-limit check raises: a nonzero usage
limit is present (Python truthiness) and `times_used` has reached it. -/
def usageCheckFails (p : Promotion) : Prop :=
  ∃ l, p.usage_limit = some l ∧ l ≠ 0 ∧ l ≤ p.times_used

/-- Condition under which the minimum-order check raises: a nonzero minimum
is present (Python truthiness) and the order total is below it. -/
def minCheckFails (p : Promotion) (order_total : ℚ) : Prop :=
  ∃ m, p.min_order_amount = some m ∧ m ≠ 0 ∧ order_total < m

/-- Rewrite the `per_user_limit` field of a promotion, leaving every other
field unchanged. -/
def setPerUserLimit (k : ℤ) (p : Promotion) : Promotion :=
  { p with per_user_limit := k }

/-- An otherwise unconstrained active percentage promotion used as a base
for concrete instances below. -/
def basePromo : Promotion := {
  id := "promo1"
  code := "SAVE10"
  description := none
  discount_type := "percentage"
  discount_value := 10
  min_order_amount := none
  max_discount := none
  usage_limit := none
  per_user_limit := 1
  times_used := 0
  start_date := none
  end_date := none
  applicable_categories := []
  applicable_products := []
  status := "active"
  created_at := 0
  updated_at := 0 }

/-- The empty store. -/
def emptyStore : Store := {
  products := [], categories := [], brands := [], promotions := [], orders := [],
  users := [] }

/-- A promotion whose usage limit is present but zero while `times_used`
is already 5. -/
def c1Promo : Promotion := { basePromo with usage_limit := some 0, times_used := 5 }

/-- A store holding only `c1Promo`. -/
def c1Store : Store := { emptyStore with promotions := [c1Promo] }

/-- The discount result the code produces for `c1Promo` at order total 100. -/
def c1Result : DiscountResult := {
  promotion_id := "promo1"
  code := "SAVE10"
  discount := 10
  discount_type := "percentage"
  discount_value := 10 }

/-- A percentage promotion whose `max_discount` is present but zero. -/
def c2Promo : Promotion := { basePromo with max_discount := some 0 }

/-- A store holding only `c2Promo`. -/
def c2Store : Store := { emptyStore with promotions := [c2Promo] }

/-- The discount result the code produces for `c2Promo` at order total 50:
the 10% discount of 5 is not capped at the present-but-zero `max_discount`. -/
def c2Result : DiscountResult := {
  promotion_id := "promo1"
  code := "SAVE10"
  discount := 5
  discount_type := "percentage"
  discount_value := 10 }

/-- An inactive promotion, for exercising the status check. -/
def w1Promo : Promotion := { basePromo with status := "inactive" }

/-- A store holding only `w1Promo`. -/
def w1Store : Store := { emptyStore with promotions := [w1Promo] }

/-- A percentage promotion with a nonzero cap of 3. -/
def w2Promo : Promotion := { basePromo with discount_value := 50, max_discount := some 3 }

/-- A store holding only `w2Promo`. -/
def w2Store : Store := { emptyStore with promotions := [w2Promo] }

/-- A promotion with zero usage limit and zero minimum order amount. -/
def w10Promo : Promotion :=
  { basePromo with usage_limit := some 0, min_order_amount := some 0, times_used := 7 }

/-- A store holding only `w10Promo`. -/
def w10Store : Store := { emptyStore with promotions := [w10Promo] }

/-- A category with no products referencing it. -/
def w3Cat : Category := {
  id := "cat1"
  name := "Phones"
  description := none
  image := none
  parent_id := none
  is_active := true
  product_count := 0
  created_at := 0
  updated_at := 0 }

/-- A product referencing category `cat1` and brand `Acme`. -/
def w3Prod : Product := {
  id := "prod1"
  name := "Widget"
  description := none
  price := 10
  original_price := none
  category_id := "cat1"
  brand := some "Acme"
  sku := "SKU-1"
  stock := 1
  images := []
  features := []
  rating := 0
  review_count := 0
  is_active := true
  created_at := 0
  updated_at := 100 }

/-- A brand named `Acme`. -/
def w3Brand : Brand := {
  id := "brand1"
  name := "Acme"
  description := none
  logo := none
  website := none
  is_active := true
  product_count := 0
  created_at := 0
  updated_at := 0 }

/-- Store with a category and a brand but no products: deletion must succeed. -/
def w3EmptyProdStore : Store :=
  { emptyStore with categories := [w3Cat], brands := [w3Brand] }

/-- Store where `w3Prod` references both the category and the brand:
deletion must be rejected. -/
def w3GuardedStore : Store :=
  { emptyStore with products := [w3Prod], categories := [w3Cat], brands := [w3Brand] }

/-- A brand whose name `a*` contains a regex metacharacter. -/
def c4Brand : Brand := { w3Brand with id := "b1", name := "a*" }

/-- A creation request for a brand with the same name `a*`. -/
def c4Data : BrandCreate :=
  { name := "a*", description := none, logo := none, website := none, is_active := true }

/-- A store already holding the brand named `a*`. -/
def c4Store : Store := { emptyStore with brands := [c4Brand] }

/-- A promotion-creation request with a lowercase code. -/
def w5Data : PromotionCreate := {
  code := "save10"
  description := none
  discount_type := "percentage"
  discount_value := 10
  min_order_amount := none
  max_discount := none
  usage_limit := none
  per_user_limit := 1
  start_date := none
  end_date := none
  applicable_categories := []
  applicable_products := [] }

/-- A valid upload: allowed type, small size. -/
def c6Good : UploadFile := { filename := "pic.png", content_type := "image/png", size := 100 }

/-- An invalid upload: disallowed content type. -/
def c6Bad : UploadFile := { filename := "doc.pdf", content_type := "application/pdf", size := 100 }

/-- A no-op update payload: it rewrites `name` to the value `w3Prod`
already holds and nothing else. -/
def c7Update : ProductUpdate := {
  name := some "Widget"
  description := none
  price := none
  original_price := none
  category_id := none
  brand := none
  sku := none
  stock := none
  images := none
  features := none
  is_active := none }

/-- An update payload that really changes the product name. -/
def w7Update : ProductUpdate := { c7Update with name := some "Gadget" }

/-- The pure value of the check/discount sequence of `validate_promotion`
once the promotion document has been fetched: the five guards in source
order, then the discount computation.  `validate_promotion_eq_checked`
below proves that the monadic service method equals this value paired with
the unchanged store. -/
def validateChecked (promotion : Promotion) (order_total : ℚ) (now : ℤ) :
    Except String DiscountResult :=
  if promotion.status ≠ promotionStatusActive then
    Except.error "Promotion is not active"
  else if promotion.start_date.elim false fun s => decide (now < s) then
    Except.error "Promotion has not started yet"
  else if promotion.end_date.elim false fun e => decide (e < now) then
    Except.error "Promotion has expired"
  else if truthyOptInt promotion.usage_limit &&
      promotion.usage_limit.elim false fun l => decide (l ≤ promotion.times_used) then
    Except.error "Promotion usage limit reached"
  else if truthyOptQ promotion.min_order_amount &&
      promotion.min_order_amount.elim false fun m => decide (order_total < m) then
    Except.error (minOrderMsg (promotion.min_order_amount.getD 0))
  else
    Except.ok {
      promotion_id := promotion.id
      code := promotion.code
      discount := round2 (
        if promotion.discount_type = "percentage" then
          if truthyOptQ promotion.max_discount then
            min (order_total * (promotion.discount_value / 100)) (promotion.max_discount.getD 0)
          else order_total * (promotion.discount_value / 100)
        else promotion.discount_value)
      discount_type := promotion.discount_type
      discount_value := promotion.discount_value }

/-- Whether an `Except` value is `ok` (request succeeded). -/
def exceptIsOk {ε α : Type} : Except ε α → Bool
  | Except.ok _ => true
  | Except.error _ => false

/-- The brand document create_brand builds for `c4Data` under id `b2`. -/
def c4NewBrand : Brand := { c4Brand with id := "b2" }

/-- The store after rewriting the first order matching `oid` through the
`$set` document of `update_order_status`. -/
def orderSetStore (oid status : String) (tn : Option String) (now : ℤ) (st : Store) : Store :=
  { st with orders := replaceFirstBy (fun q => q.id == oid) (applyOrderStatusSet status tn now) st.orders }

/-- The store after rewriting the first product matching `pid` through the
`$set` document of `update_product`. -/
def productSetStore (pid : String) (u : ProductUpdate) (now : ℤ) (st : Store) : Store :=
  { st with products := replaceFirstBy (fun q => q.id == pid) (applyProductSet u now) st.products }

/-- `CategoryUpdate` from models/admin.py: every field optional; `None`
fields are dropped from the `$set` document. -/
structure CategoryUpdate where
  name : Option String
  description : Option String
  image : Option String
  parent_id : Option String
  is_active : Option Bool
deriving DecidableEq, Repr

/-- `not update_dict` for a category update payload. -/
def CategoryUpdate.isEmptyUpdate (cu : CategoryUpdate) : Bool :=
  cu.name.isNone && cu.description.isNone && cu.image.isNone &&
  cu.parent_id.isNone && cu.is_active.isNone

/-- The effect of `{"$set": update_dict}` on one category document. -/
def applyCategorySet (cu : CategoryUpdate) (now : ℤ) (c : Category) : Category :=
  { c with
    name := setReq cu.name c.name
    description := setOpt cu.description c.description
    image := setOpt cu.image c.image
    parent_id := setOpt cu.parent_id c.parent_id
    is_active := setReq cu.is_active c.is_active
    updated_at := now }

/-- `self.db.categories.find_one({"id": category_id})`. -/
def findOneCategoryById (cid : String) : DbM (Option Category) := fun st =>
  (Except.ok (st.categories.find? fun c => c.id == cid), st)

/-- `self.db.categories.update_one({"id": id}, {"$set": …})`. -/
def updateOneCategoryById (cid : String) (f : Category → Category) :
    DbM (Bool × Bool) := fun st =>
  match st.categories.find? fun c => c.id == cid with
  | none => (Except.ok (false, false), st)
  | some c =>
    (Except.ok (true, decide (f c ≠ c)),
     { st with categories := replaceFirstBy (fun q => q.id == cid) f st.categories })

/-- `AdminService.update_category` (admin_service.py lines 154-170). -/
def update_category (category_id : String) (update_data : CategoryUpdate) (now : ℤ) :
    DbM (Option Category) := do
  if update_data.isEmptyUpdate then
    findOneCategoryById category_id
  else do
    let counts ← updateOneCategoryById category_id (applyCategorySet update_data now)
    if counts.2 = false then pure none
    else findOneCategoryById category_id

/-- The `PUT /admin/categories/{category_id}` handler (routes/admin.py lines
290-300): a `None` service result becomes 404. -/
def route_update_category (category_id : String) (update_data : CategoryUpdate)
    (now : ℤ) : Store → Except HTTPError Category × Store := fun st =>
  match update_category category_id update_data now st with
  | (Except.ok (some category), st') => (Except.ok category, st')
  | (Except.ok none, st') => (Except.error ⟨404, "Category not found"⟩, st')
  | (Except.error e, st') => (Except.error ⟨500, e⟩, st')

/-- `PromotionUpdate` from models/admin.py: every field optional; `None`
fields are dropped, and enum fields are stored as their `.value` strings. -/
structure PromotionUpdate where
  description : Option String
  discount_type : Option String
  discount_value : Option ℚ
  min_order_amount : Option ℚ
  max_discount : Option ℚ
  usage_limit : Option ℤ
  per_user_limit : Option ℤ
  start_date : Option ℤ
  end_date : Option ℤ
  applicable_categories : Option (List String)
  applicable_products : Option (List String)
  status : Option String
deriving DecidableEq, Repr

/-- `not update_dict` for a promotion update payload. -/
def PromotionUpdate.isEmptyUpdate (pu : PromotionUpdate) : Bool :=
  pu.description.isNone && pu.discount_type.isNone && pu.discount_value.isNone &&
  pu.min_order_amount.isNone && pu.max_discount.isNone && pu.usage_limit.isNone &&
  pu.per_user_limit.isNone && pu.start_date.isNone && pu.end_date.isNone &&
  pu.applicable_categories.isNone && pu.applicable_products.isNone &&
  pu.status.isNone

/-- The effect of `{"$set": update_dict}` on one promotion document. -/
def applyPromotionSet (pu : PromotionUpdate) (now : ℤ) (p : Promotion) : Promotion :=
  { p with
    description := setOpt pu.description p.description
    discount_type := setReq pu.discount_type p.discount_type
    discount_value := setReq pu.discount_value p.discount_value
    min_order_amount := setOpt pu.min_order_amount p.min_order_amount
    max_discount := setOpt pu.max_discount p.max_discount
    usage_limit := setOpt pu.usage_limit p.usage_limit
    per_user_limit := setReq pu.per_user_limit p.per_user_limit
    start_date := setOpt pu.start_date p.start_date
    end_date := setOpt pu.end_date p.end_date
    applicable_categories := setReq pu.applicable_categories p.applicable_categories
    applicable_products := setReq pu.applicable_products p.applicable_products
    status := setReq pu.status p.status
    updated_at := now }

/-- `self.db.promotions.find_one({"id": promo_id})`. -/
def findOnePromotionById (promo_id : String) : DbM (Option Promotion) := fun st =>
  (Except.ok (st.promotions.find? fun p => p.id == promo_id), st)

/-- `self.db.promotions.update_one({"id": id}, {"$set": …})`. -/
def updateOnePromotionById (promo_id : String) (f : Promotion → Promotion) :
    DbM (Bool × Bool) := fun st =>
  match st.promotions.find? fun p => p.id == promo_id with
  | none => (Except.ok (false, false), st)
  | some p =>
    (Except.ok (true, decide (f p ≠ p)),
     { st with promotions := replaceFirstBy (fun q => q.id == promo_id) f st.promotions })

/-- `AdminService.update_promotion` (admin_service.py lines 224-247). -/
def update_promotion (promo_id : String) (update_data : PromotionUpdate) (now : ℤ) :
    DbM (Option Promotion) := do
  if update_data.isEmptyUpdate then
    findOnePromotionById promo_id
  else do
    let counts ← updateOnePromotionById promo_id (applyPromotionSet update_data now)
    if counts.2 = false then pure none
    else findOnePromotionById promo_id

/-- The `PUT /admin/promotions/{promo_id}` handler (routes/admin.py lines
336-346): a `None` service result becomes 404. -/
def route_update_promotion (promo_id : String) (update_data : PromotionUpdate)
    (now : ℤ) : Store → Except HTTPError Promotion × Store := fun st =>
  match update_promotion promo_id update_data now st with
  | (Except.ok (some promotion), st') => (Except.ok promotion, st')
  | (Except.ok none, st') => (Except.error ⟨404, "Promotion not found"⟩, st')
  | (Except.error e, st') => (Except.error ⟨500, e⟩, st')

/-- The `$set` document of `update_user_role`: always `role` and
`updated_at`. -/
def applyUserRoleSet (role : String) (now : ℤ) (us : User) : User :=
  { us with role := role, updated_at := now }

/-- `self.db.users.find_one({"id": user_id})` (the password projection is
not modelled). -/
def findOneUserById (user_id : String) : DbM (Option User) := fun st =>
  (Except.ok (st.users.find? fun us => us.id == user_id), st)

/-- `self.db.users.update_one({"id": id}, {"$set": …})`. -/
def updateOneUserById (user_id : String) (f : User → User) :
    DbM (Bool × Bool) := fun st =>
  match st.users.find? fun us => us.id == user_id with
  | none => (Except.ok (false, false), st)
  | some us =>
    (Except.ok (true, decide (f us ≠ us)),
     { st with users := replaceFirstBy (fun q => q.id == user_id) f st.users })

/-- `AdminService.update_user_role` (admin_service.py lines 388-398). -/
def update_user_role (user_id : String) (role : String) (now : ℤ) :
    DbM (Option User) := do
  let counts ← updateOneUserById user_id (applyUserRoleSet role now)
  if counts.2 = false then pure none
  else findOneUserById user_id

/-- The `UserRole` enum values from models/admin.py. -/
def validUserRoles : List String := ["user", "admin", "super_admin"]

/-- The `PUT /admin/users/{user_id}/role` handler (routes/admin.py lines
415-432): an invalid role is rejected with 400 before the service runs,
and a `None` service result becomes 404. -/
def route_update_user_role (user_id : String) (role : String) (now : ℤ) :
    Store → Except HTTPError User × Store := fun st =>
  if role ∉ validUserRoles then
    (Except.error ⟨400, "Invalid role. Valid: user, admin, super_admin"⟩, st)
  else
    match update_user_role user_id role now st with
    | (Except.ok (some us), st') => (Except.ok us, st')
    | (Except.ok none, st') => (Except.error ⟨404, "User not found"⟩, st')
    | (Except.error e, st') => (Except.error ⟨500, e⟩, st')

/-- The store after rewriting the first category matching `cid` through the
`$set` document of `update_category`. -/
def categorySetStore (cid : String) (cu : CategoryUpdate) (now : ℤ) (st : Store) : Store :=
  { st with categories := replaceFirstBy (fun q => q.id == cid) (applyCategorySet cu now) st.categories }

/-- The store after rewriting the first promotion matching `promo_id`
through the `$set` document of `update_promotion`. -/
def promotionSetStore (promo_id : String) (pu : PromotionUpdate) (now : ℤ) (st : Store) : Store :=
  { st with promotions := replaceFirstBy (fun q => q.id == promo_id) (applyPromotionSet pu now) st.promotions }

/-- The store after rewriting the first user matching `uid` through the
`$set` document of `update_user_role`. -/
def userSetStore (uid : String) (role : String) (now : ℤ) (st : Store) : Store :=
  { st with users := replaceFirstBy (fun q => q.id == uid) (applyUserRoleSet role now) st.users }

/-- A category update payload that really changes the category name. -/
def w7CatUpdate : CategoryUpdate := {
  name := some "Tablets"
  description := none
  image := none
  parent_id := none
  is_active := none }


theorem dbm_bind_apply {α β : Type} (m : DbM α) (f : α → DbM β) (st : Store) :
    (m >>= f) st =
      match m st with
      | (Except.ok a, st') => f a st'
      | (Except.error e, st') => (Except.error e, st') := rfl

theorem dbm_pure_apply {α : Type} (a : α) (st : Store) :
    (pure a : DbM α) st = (Except.ok a, st) := rfl

theorem dbRaise_apply {α : Type} (msg : String) (st : Store) :
    (dbRaise msg : DbM α) st = (Except.error msg, st) := rfl

theorem findOnePromotionByCode_apply (c : String) (st : Store) :
    findOnePromotionByCode c st =
      (Except.ok (st.promotions.find? fun p => p.code == c), st) := rfl

theorem validate_promotion_eq_checked (code : String) (t : ℚ) (u : String)
    (now : ℤ) (st : Store) (promotion : Promotion)
    (hfind : (st.promotions.find? fun p => p.code == pyUpper code) = some promotion) :
    validate_promotion code t u now st = (validateChecked promotion t now, st) := by
  simp only [validate_promotion, dbm_bind_apply, findOnePromotionByCode_apply, hfind,
    validateChecked]
  repeat' split
  all_goals simp [dbRaise_apply, dbm_pure_apply]

theorem validate_promotion_none (code : String) (t : ℚ) (u : String)
    (now : ℤ) (st : Store)
    (hfind : (st.promotions.find? fun p => p.code == pyUpper code) = none) :
    validate_promotion code t u now st = (Except.error "Invalid promotion code", st) := by
  simp only [validate_promotion, dbm_bind_apply, findOnePromotionByCode_apply, hfind]
  rfl



theorem startGuard_iff (p : Promotion) (now : ℤ) :
    (p.start_date.elim false fun s => decide (now < s)) = true ↔ startCheckFails p now := by
  cases h : p.start_date <;> simp [startCheckFails, h]

theorem endGuard_iff (p : Promotion) (now : ℤ) :
    (p.end_date.elim false fun e => decide (e < now)) = true ↔ endCheckFails p now := by
  cases h : p.end_date <;> simp [endCheckFails, h]

theorem usageGuard_iff (p : Promotion) :
    (truthyOptInt p.usage_limit &&
      p.usage_limit.elim false fun l => decide (l ≤ p.times_used)) = true ↔
    usageCheckFails p := by
  cases h : p.usage_limit <;> simp [truthyOptInt, usageCheckFails, h]

theorem minGuard_iff (p : Promotion) (t : ℚ) :
    (truthyOptQ p.min_order_amount &&
      p.min_order_amount.elim false fun m => decide (t < m)) = true ↔
    minCheckFails p t := by
  cases h : p.min_order_amount <;> simp [truthyOptQ, minCheckFails, h]

/-- C8: validate_promotion is read-only: for every code, order total,
user and time, the store after the call is exactly the store before it;
in particular no promotion's times_used counter changes. -/
theorem validate_promotion_readonly (code : String) (order_total : ℚ)
    (user_id : String) (now : ℤ) (st : Store) :
    (validate_promotion code order_total user_id now st).2 = st ∧
    ((validate_promotion code order_total user_id now st).2).promotions.map
      Promotion.times_used = st.promotions.map Promotion.times_used := by
  cases hfind : st.promotions.find? fun p => p.code == pyUpper code with
  | none => rw [validate_promotion_none _ _ _ _ _ hfind]; exact ⟨rfl, rfl⟩
  | some p => rw [validate_promotion_eq_checked _ _ _ _ _ _ hfind]; exact ⟨rfl, rfl⟩

/-- C9: validate_promotion does not depend on the user: any two user ids
give identical results, and rewriting every promotion's per_user_limit
field to an arbitrary value leaves the result unchanged, so the stored
per_user_limit is never consulted. -/
theorem validate_promotion_user_independent (code : String) (order_total : ℚ)
    (now : ℤ) (st : Store) (u1 u2 : String) (k : ℤ) :
    validate_promotion code order_total u1 now st =
      validate_promotion code order_total u2 now st ∧
    (validate_promotion code order_total u1 now
      { st with promotions := st.promotions.map (setPerUserLimit k) }).1 =
      (validate_promotion code order_total u1 now st).1 := by
  refine ⟨rfl, ?_⟩
  have hcomp : ((fun p : Promotion => p.code == pyUpper code) ∘ setPerUserLimit k) =
      (fun p : Promotion => p.code == pyUpper code) := rfl
  cases hfind : st.promotions.find? fun p => p.code == pyUpper code with
  | none =>
    have h2 : (({ st with promotions := st.promotions.map (setPerUserLimit k) } :
        Store).promotions.find? fun p => p.code == pyUpper code) = none := by
      simp only [List.find?_map, hcomp, hfind, Option.map_none']
    rw [validate_promotion_none _ _ _ _ _ h2, validate_promotion_none _ _ _ _ _ hfind]
  | some p =>
    have h2 : (({ st with promotions := st.promotions.map (setPerUserLimit k) } :
        Store).promotions.find? fun p => p.code == pyUpper code) =
        some (setPerUserLimit k p) := by
      simp only [List.find?_map, hcomp, hfind, Option.map_some']
    rw [validate_promotion_eq_checked _ _ _ _ _ _ h2,
      validate_promotion_eq_checked _ _ _ _ _ _ hfind]
    rfl

/-- C10: zero-valued limits are treated as absent: a promotion with
usage_limit = 0 validates regardless of times_used (0 means unlimited,
not exhausted), and a promotion with min_order_amount = 0 validates for
every order total, the other checks passing. -/
theorem validate_promotion_zero_limits_skipped (st : Store) (code : String)
    (t : ℚ) (u : String) (now : ℤ) (p : Promotion)
    (hfind : (st.promotions.find? fun q => q.code == pyUpper code) = some p)
    (hstatus : p.status = promotionStatusActive)
    (hstart : ¬ startCheckFails p now) (hend : ¬ endCheckFails p now) :
    (p.usage_limit = some 0 → ¬ minCheckFails p t →
      ∃ r, (validate_promotion code t u now st).1 = Except.ok r) ∧
    (p.min_order_amount = some 0 → ¬ usageCheckFails p →
      ∃ r, (validate_promotion code t u now st).1 = Except.ok r) := by
  rw [validate_promotion_eq_checked _ _ _ _ _ _ hfind]
  have hactive : ¬ (p.status ≠ promotionStatusActive) := fun h => h hstatus
  have hs : ¬ ((p.start_date.elim false fun s => decide (now < s)) = true) :=
    (startGuard_iff p now).not.mpr hstart
  have he : ¬ ((p.end_date.elim false fun e => decide (e < now)) = true) :=
    (endGuard_iff p now).not.mpr hend
  constructor
  · intro h0 hmin
    have hu : ¬ ((truthyOptInt p.usage_limit &&
        p.usage_limit.elim false fun l => decide (l ≤ p.times_used)) = true) := by
      simp [h0, truthyOptInt]
    have hm : ¬ ((truthyOptQ p.min_order_amount &&
        p.min_order_amount.elim false fun m => decide (t < m)) = true) :=
      (minGuard_iff p t).not.mpr hmin
    show ∃ r, validateChecked p t now = Except.ok r
    unfold validateChecked
    rw [if_neg hactive, if_neg hs, if_neg he, if_neg hu, if_neg hm]
    exact ⟨_, rfl⟩
  · intro h0 husage
    have hu : ¬ ((truthyOptInt p.usage_limit &&
        p.usage_limit.elim false fun l => decide (l ≤ p.times_used)) = true) :=
      (usageGuard_iff p).not.mpr husage
    have hm : ¬ ((truthyOptQ p.min_order_amount &&
        p.min_order_amount.elim false fun m => decide (t < m)) = true) := by
      simp [h0, truthyOptQ]
    show ∃ r, validateChecked p t now = Except.ok r
    unfold validateChecked
    rw [if_neg hactive, if_neg hs, if_neg he, if_neg hu, if_neg hm]
    exact ⟨_, rfl⟩



theorem roundHalfEven_intCast (k : ℤ) : roundHalfEven (k : ℚ) = k := by
  unfold roundHalfEven
  rw [Int.floor_intCast]
  norm_num

/-- C1 (amended): for every stored promotion found by validate_promotion,
the checks run in source order — status must be "active", the current time
must lie inside the inclusive [start_date, end_date] window when those
bounds are present, times_used must be below the usage limit when a
NONZERO usage limit is present, and the order total must reach the minimum
when a NONZERO minimum is present (a zero limit is Python-falsy and
skipped) — the raised error names the first failing check, and a discount
result is returned exactly when every check passes. -/
theorem validate_promotion_check_order (st : Store) (code : String) (t : ℚ)
    (u : String) (now : ℤ) (p : Promotion)
    (hfind : (st.promotions.find? fun q => q.code == pyUpper code) = some p) :
    (p.status ≠ promotionStatusActive →
      (validate_promotion code t u now st).1 = Except.error "Promotion is not active") ∧
    (p.status = promotionStatusActive → startCheckFails p now →
      (validate_promotion code t u now st).1 = Except.error "Promotion has not started yet") ∧
    (p.status = promotionStatusActive → ¬ startCheckFails p now → endCheckFails p now →
      (validate_promotion code t u now st).1 = Except.error "Promotion has expired") ∧
    (p.status = promotionStatusActive → ¬ startCheckFails p now → ¬ endCheckFails p now →
      usageCheckFails p →
      (validate_promotion code t u now st).1 = Except.error "Promotion usage limit reached") ∧
    (p.status = promotionStatusActive → ¬ startCheckFails p now → ¬ endCheckFails p now →
      ¬ usageCheckFails p → minCheckFails p t →
      ∃ m, p.min_order_amount = some m ∧
        (validate_promotion code t u now st).1 = Except.error (minOrderMsg m)) ∧
    (p.status = promotionStatusActive → ¬ startCheckFails p now → ¬ endCheckFails p now →
      ¬ usageCheckFails p → ¬ minCheckFails p t →
      ∃ r, (validate_promotion code t u now st).1 = Except.ok r) := by
  rw [validate_promotion_eq_checked _ _ _ _ _ _ hfind]
  refine ⟨?_, ?_, ?_, ?_, ?_, ?_⟩
  · intro h
    show validateChecked p t now = Except.error "Promotion is not active"
    unfold validateChecked
    rw [if_pos h]
  · intro hst hsf
    show validateChecked p t now = Except.error "Promotion has not started yet"
    unfold validateChecked
    rw [if_neg (fun h => h hst), if_pos ((startGuard_iff p now).mpr hsf)]
  · intro hst hs hef
    show validateChecked p t now = Except.error "Promotion has expired"
    unfold validateChecked
    rw [if_neg (fun h => h hst), if_neg ((startGuard_iff p now).not.mpr hs),
      if_pos ((endGuard_iff p now).mpr hef)]
  · intro hst hs he huf
    show validateChecked p t now = Except.error "Promotion usage limit reached"
    unfold validateChecked
    rw [if_neg (fun h => h hst), if_neg ((startGuard_iff p now).not.mpr hs),
      if_neg ((endGuard_iff p now).not.mpr he), if_pos ((usageGuard_iff p).mpr huf)]
  · intro hst hs he hu hmf
    obtain ⟨m, hmeq, hmne, hmlt⟩ := hmf
    refine ⟨m, hmeq, ?_⟩
    show validateChecked p t now = Except.error (minOrderMsg m)
    unfold validateChecked
    rw [if_neg (fun h => h hst), if_neg ((startGuard_iff p now).not.mpr hs),
      if_neg ((endGuard_iff p now).not.mpr he), if_neg ((usageGuard_iff p).not.mpr hu),
      if_pos ((minGuard_iff p t).mpr ⟨m, hmeq, hmne, hmlt⟩)]
    simp [hmeq]
  · intro hst hs he hu hm
    show ∃ r, validateChecked p t now = Except.ok r
    unfold validateChecked
    rw [if_neg (fun h => h hst), if_neg ((startGuard_iff p now).not.mpr hs),
      if_neg ((endGuard_iff p now).not.mpr he), if_neg ((usageGuard_iff p).not.mpr hu),
      if_neg ((minGuard_iff p t).not.mpr hm)]
    exact ⟨_, rfl⟩

/-- C1 counterexample: a promotion whose usage_limit is present but zero
and whose times_used is 5 validates successfully, although times_used is
not below the present usage limit, so the claim as stated fails. -/
theorem validate_promotion_zero_usage_limit_cex :
    c1Promo.usage_limit = some 0 ∧ ¬ c1Promo.times_used < 0 ∧
    c1Store.promotions.find? (fun q => q.code == pyUpper "SAVE10") = some c1Promo ∧
    (validate_promotion "SAVE10" 100 "u1" 50 c1Store).1 = Except.ok c1Result := by
  refine ⟨rfl, by decide, rfl, ?_⟩
  have hfind : (c1Store.promotions.find? fun q => q.code == pyUpper "SAVE10") =
      some c1Promo := rfl
  rw [validate_promotion_eq_checked _ _ _ _ _ _ hfind]
  show validateChecked c1Promo 100 50 = Except.ok c1Result
  unfold validateChecked
  rw [if_neg (by decide), if_neg (by decide), if_neg (by decide), if_neg (by decide),
    if_neg (by decide)]
  have hr : round2 (100 * (c1Promo.discount_value / 100)) = 10 := by
    unfold round2
    have h : (100 * ((c1Promo.discount_value : ℚ) / 100) * 100) = ((1000 : ℤ) : ℚ) := by
      norm_num [c1Promo, basePromo]
    rw [h, roundHalfEven_intCast]
    norm_num
  rw [if_pos (by decide), if_neg (by decide), hr]
  rfl



/-- C2 (amended): for every promotion passing all checks, a percentage
discount equals order_total * discount_value / 100, capped at max_discount
when max_discount is present AND nonzero, uncapped when max_discount is
absent or zero (Python truthiness); a fixed discount equals exactly
discount_value, uncapped even beyond the order total; the result is
rounded to two decimal places (round-half-even). -/
theorem validate_promotion_discount_formula (st : Store) (code : String) (t : ℚ)
    (u : String) (now : ℤ) (p : Promotion)
    (hfind : (st.promotions.find? fun q => q.code == pyUpper code) = some p)
    (hstatus : p.status = promotionStatusActive)
    (hstart : ¬ startCheckFails p now) (hend : ¬ endCheckFails p now)
    (husage : ¬ usageCheckFails p) (hmin : ¬ minCheckFails p t) :
    (p.discount_type = "percentage" → ∀ m, p.max_discount = some m → m ≠ 0 →
      (validate_promotion code t u now st).1 = Except.ok
        ⟨p.id, p.code, round2 (min (t * (p.discount_value / 100)) m),
          p.discount_type, p.discount_value⟩) ∧
    (p.discount_type = "percentage" → (p.max_discount = none ∨ p.max_discount = some 0) →
      (validate_promotion code t u now st).1 = Except.ok
        ⟨p.id, p.code, round2 (t * (p.discount_value / 100)),
          p.discount_type, p.discount_value⟩) ∧
    (p.discount_type = "fixed" →
      (validate_promotion code t u now st).1 = Except.ok
        ⟨p.id, p.code, round2 p.discount_value, p.discount_type, p.discount_value⟩) := by
  rw [validate_promotion_eq_checked _ _ _ _ _ _ hfind]
  have hrest : validateChecked p t now = Except.ok {
      promotion_id := p.id
      code := p.code
      discount := round2 (
        if p.discount_type = "percentage" then
          if truthyOptQ p.max_discount then
            min (t * (p.discount_value / 100)) (p.max_discount.getD 0)
          else t * (p.discount_value / 100)
        else p.discount_value)
      discount_type := p.discount_type
      discount_value := p.discount_value } := by
    unfold validateChecked
    rw [if_neg (fun h => h hstatus), if_neg ((startGuard_iff p now).not.mpr hstart),
      if_neg ((endGuard_iff p now).not.mpr hend), if_neg ((usageGuard_iff p).not.mpr husage),
      if_neg ((minGuard_iff p t).not.mpr hmin)]
  refine ⟨?_, ?_, ?_⟩
  · intro hdt m hmeq hmne
    show validateChecked p t now = _
    rw [hrest]
    simp [hdt, hmeq, truthyOptQ, hmne]
  · intro hdt hmax
    show validateChecked p t now = _
    rw [hrest]
    cases hmax with
    | inl h => simp [hdt, h, truthyOptQ]
    | inr h => simp [hdt, h, truthyOptQ]
  · intro hdt
    show validateChecked p t now = _
    rw [hrest]
    simp [hdt]

/-- C2 counterexample: for a 10% promotion with max_discount present and
equal to 0, the code returns discount 5 on an order of 50, not the capped
value min(5, 0) = 0 that the claim as stated predicts. -/
theorem validate_promotion_zero_max_discount_cex :
    c2Promo.max_discount = some 0 ∧
    c2Store.promotions.find? (fun q => q.code == pyUpper "SAVE10") = some c2Promo ∧
    (validate_promotion "SAVE10" 50 "u1" 0 c2Store).1 = Except.ok c2Result ∧
    c2Result.discount = 5 ∧
    round2 (min (50 * (c2Promo.discount_value / 100)) 0) = 0 ∧ (5 : ℚ) ≠ 0 := by
  refine ⟨rfl, rfl, ?_, rfl, ?_, by norm_num⟩
  · have hfind : (c2Store.promotions.find? fun q => q.code == pyUpper "SAVE10") =
        some c2Promo := rfl
    rw [validate_promotion_eq_checked _ _ _ _ _ _ hfind]
    show validateChecked c2Promo 50 0 = Except.ok c2Result
    unfold validateChecked
    rw [if_neg (by decide), if_neg (by decide), if_neg (by decide), if_neg (by decide),
      if_neg (by decide)]
    have hr : round2 (50 * (c2Promo.discount_value / 100)) = 5 := by
      unfold round2
      have h : (50 * ((c2Promo.discount_value : ℚ) / 100) * 100) = ((500 : ℤ) : ℚ) := by
        norm_num [c2Promo, basePromo]
      rw [h, roundHalfEven_intCast]
      norm_num
    rw [if_pos (by decide), if_neg (by decide), hr]
    rfl
  · have hmin : min (50 * (c2Promo.discount_value / 100)) (0 : ℚ) = 0 := by
      norm_num [c2Promo, basePromo]
    rw [hmin]
    unfold round2
    have h : ((0 : ℚ) * 100) = ((0 : ℤ) : ℚ) := by norm_num
    rw [h, roundHalfEven_intCast]
    norm_num

/-- Witness instantiating the C1 ordering theorem at an inactive promotion. -/
theorem validate_promotion_check_order_witness :
    (validate_promotion "SAVE10" 100 "u1" 50 w1Store).1 =
      Except.error "Promotion is not active" := by
  have h := validate_promotion_check_order w1Store "SAVE10" 100 "u1" 50 w1Promo rfl
  exact h.1 (by decide)

/-- Witness instantiating the C2 discount formula at a capped promotion. -/
theorem validate_promotion_discount_formula_witness :
    (validate_promotion "SAVE10" 10 "u1" 50 w2Store).1 = Except.ok
      ⟨"promo1", "SAVE10", round2 (min (10 * ((50 : ℚ) / 100)) 3), "percentage", 50⟩ := by
  have h := validate_promotion_discount_formula w2Store "SAVE10" 10 "u1" 50 w2Promo rfl rfl
    (by simp [startCheckFails, w2Promo, basePromo])
    (by simp [endCheckFails, w2Promo, basePromo])
    (by simp [usageCheckFails, w2Promo, basePromo])
    (by simp [minCheckFails, w2Promo, basePromo])
  exact h.1 rfl 3 rfl (by norm_num)

/-- Witness instantiating the C10 theorem at a promotion with zero limits. -/
theorem validate_promotion_zero_limits_skipped_witness :
    ∃ r, (validate_promotion "SAVE10" 100 "u1" 50 w10Store).1 = Except.ok r := by
  have h := validate_promotion_zero_limits_skipped w10Store "SAVE10" 100 "u1" 50 w10Promo rfl
    rfl
    (by simp [startCheckFails, w10Promo, basePromo])
    (by simp [endCheckFails, w10Promo, basePromo])
  exact h.1 rfl (by simp [minCheckFails, w10Promo, basePromo])



theorem char_toNat_ofNat {n : ℕ} (h : n.isValidChar) : (Char.ofNat n).toNat = n := by
  simp [Char.ofNat, h, Char.ofNatAux, Char.toNat, UInt32.toNat]

theorem pyToUpperChar_idem (c : Char) : pyToUpperChar (pyToUpperChar c) = pyToUpperChar c := by
  unfold pyToUpperChar
  by_cases h : 97 ≤ c.toNat ∧ c.toNat ≤ 122
  · rw [if_pos h]
    have hv : (c.toNat - 32).isValidChar := by
      constructor
      omega
    have ht : (Char.ofNat (c.toNat - 32)).toNat = c.toNat - 32 := char_toNat_ofNat hv
    rw [ht, if_neg (by omega)]
  · rw [if_neg h, if_neg h]

theorem pyUpper_idem (s : String) : pyUpper (pyUpper s) = pyUpper s := by
  have hc : pyToUpperChar ∘ pyToUpperChar = pyToUpperChar := funext pyToUpperChar_idem
  show String.mk ((s.data.map pyToUpperChar).map pyToUpperChar) =
    String.mk (s.data.map pyToUpperChar)
  rw [List.map_map, hc]

/-- C5: create_promotion raises a validation error when a promotion with
the uppercased code already exists and otherwise stores the code
uppercased; consequently validate_promotion gives the same result on a
code and on its uppercased form, because the lookup key upper(c) is
idempotent. -/
theorem create_validate_promotion_code_case :
    (∀ (st : Store) (d : PromotionCreate) (new_id : String) (now : ℤ),
      ((st.promotions.find? fun q => q.code == pyUpper d.code).isSome →
        create_promotion d new_id now st =
          (Except.error "Promotion code already exists", st)) ∧
      ((st.promotions.find? fun q => q.code == pyUpper d.code) = none →
        ∃ q, create_promotion d new_id now st =
            (Except.ok q, { st with promotions := st.promotions ++ [q] }) ∧
          q.code = pyUpper d.code)) ∧
    (∀ (st : Store) (code : String) (t : ℚ) (u : String) (now : ℤ),
      validate_promotion code t u now st = validate_promotion (pyUpper code) t u now st) := by
  refine ⟨fun st d new_id now => ⟨?_, ?_⟩, fun st code t u now => ?_⟩
  · intro h
    obtain ⟨e, he⟩ := Option.isSome_iff_exists.mp h
    simp only [create_promotion, dbm_bind_apply, findOnePromotionByCode_apply, he]
    rfl
  · intro h
    simp only [create_promotion, dbm_bind_apply, findOnePromotionByCode_apply, h]
    exact ⟨_, rfl, rfl⟩
  · simp only [validate_promotion, pyUpper_idem]

/-- Witness instantiating the C5 theorem at an empty store. -/
theorem create_validate_promotion_code_case_witness :
    ∃ q, create_promotion w5Data "id1" 0 emptyStore =
        (Except.ok q, { emptyStore with promotions := [q] }) ∧
      q.code = pyUpper "save10" := by
  have h2 := (create_validate_promotion_code_case.1 emptyStore w5Data "id1" 0).2 rfl
  exact h2



theorem countProductsByCategoryId_apply (cid : String) (st : Store) :
    countProductsByCategoryId cid st =
      (Except.ok (st.products.countP fun p => p.category_id == cid), st) := rfl

theorem findOneBrandById_apply (bid : String) (st : Store) :
    findOneBrandById bid st =
      (Except.ok (st.brands.find? fun b => b.id == bid), st) := rfl

theorem countProductsByBrandName_apply (name : String) (st : Store) :
    countProductsByBrandName name st =
      (Except.ok (st.products.countP fun p => p.brand == some name), st) := rfl

/-- C3: delete_category and delete_brand count the products referencing
the category (by category_id) or the brand (by brand name); a positive
count raises a validation error and leaves the store unchanged, and only
a zero count deletes the document, the result reporting whether it
existed (a missing brand short-circuits to false). -/
theorem delete_category_brand_referential_guard :
    (∀ (st : Store) (cid : String),
      ((st.products.countP fun pr => pr.category_id == cid) ≠ 0 →
        delete_category cid st =
          (Except.error ("Cannot delete category with " ++
            toString (st.products.countP fun pr => pr.category_id == cid) ++
            " products"), st)) ∧
      ((st.products.countP fun pr => pr.category_id == cid) = 0 →
        delete_category cid st =
          (Except.ok (st.categories.any fun c => c.id == cid),
           { st with categories := st.categories.eraseP fun c => c.id == cid }))) ∧
    (∀ (st : Store) (bid : String),
      ((st.brands.find? fun b => b.id == bid) = none →
        delete_brand bid st = (Except.ok false, st)) ∧
      (∀ b, (st.brands.find? fun b2 => b2.id == bid) = some b →
        ((st.products.countP fun pr => pr.brand == some b.name) ≠ 0 →
          delete_brand bid st =
            (Except.error ("Cannot delete brand with " ++
              toString (st.products.countP fun pr => pr.brand == some b.name) ++
              " products. Please reassign products first."), st)) ∧
        ((st.products.countP fun pr => pr.brand == some b.name) = 0 →
          delete_brand bid st =
            (Except.ok true,
             { st with brands := st.brands.eraseP fun b2 => b2.id == bid })))) := by
  refine ⟨fun st cid => ⟨?_, ?_⟩, fun st bid => ⟨?_, fun b hb => ⟨?_, ?_⟩⟩⟩
  · intro h
    simp only [delete_category, dbm_bind_apply, countProductsByCategoryId_apply]
    rw [if_pos (Nat.pos_of_ne_zero h)]
    rfl
  · intro h
    simp only [delete_category, dbm_bind_apply, countProductsByCategoryId_apply, h]
    rfl
  · intro h
    simp only [delete_brand, dbm_bind_apply, findOneBrandById_apply, h]
    rfl
  · intro h
    simp only [delete_brand, dbm_bind_apply, findOneBrandById_apply, hb,
      countProductsByBrandName_apply]
    rw [if_pos (Nat.pos_of_ne_zero h)]
    rfl
  · intro h
    have hpb := List.find?_some hb
    have hany : (st.brands.any fun b2 => b2.id == bid) = true :=
      List.any_eq_true.mpr ⟨b, List.mem_of_find?_eq_some hb, hpb⟩
    simp only [delete_brand, dbm_bind_apply, findOneBrandById_apply, hb,
      countProductsByBrandName_apply, h]
    simp [deleteOneBrand, hany]

/-- Witness instantiating C3 on both the success and the guarded path. -/
theorem delete_category_brand_referential_guard_witness :
    delete_category "cat1" w3EmptyProdStore =
      (Except.ok true, { w3EmptyProdStore with categories := [] }) ∧
    delete_brand "brand1" w3GuardedStore =
      (Except.error
        "Cannot delete brand with 1 products. Please reassign products first.",
       w3GuardedStore) := by
  constructor
  · exact (delete_category_brand_referential_guard.1 w3EmptyProdStore "cat1").2 rfl
  · exact ((delete_category_brand_referential_guard.2 w3GuardedStore "brand1").2
      w3Brand rfl).1 (by decide)

/-- C4: the brand-name uniqueness invariant is broken by regex
interpolation.  create_brand quotes the raw name into the anchored
case-insensitive regex `^name$`, so for the stored brand named "a*" the
pattern `^a*$` (zero or more letters a) does not match the literal string
"a*"; creating a second brand named "a*" therefore bypasses the duplicate
check and the collection ends with two brands of identical name. -/
theorem create_brand_regex_injection :
    regexFullMatchI "a*" "a*" = false ∧
    create_brand c4Data "b2" 0 c4Store =
      (Except.ok c4NewBrand, { c4Store with brands := [c4Brand, c4NewBrand] }) ∧
    c4Brand.name = c4NewBrand.name := by decide

theorem uploadLoop_filter (gen : ℕ → String) (files : List UploadFile) : ∀ (k : ℕ),
    (uploadLoop gen k files).map (fun r => (r.size, r.content_type)) =
      (files.filter isValidUpload).map fun f => (f.size, f.content_type) := by
  induction files with
  | nil => intro k; rfl
  | cons f fs ih =>
    intro k
    by_cases h1 : f.content_type ∈ allowedImageTypes
    · by_cases h2 : maxUploadBytes < f.size
      · have hv : isValidUpload f = false := by
          simp [isValidUpload, h1, Nat.not_le.mpr h2]
        simp [uploadLoop, h1, h2, hv, ih]
      · have hv : isValidUpload f = true := by
          simp [isValidUpload, h1, Nat.not_lt.mp h2]
        simp [uploadLoop, h1, h2, hv, mkUploadResponse, ih]
    · have hv : isValidUpload f = false := by simp [isValidUpload, h1]
      simp [uploadLoop, h1, hv, ih]

/-- C6 amended: the multiple-image upload succeeds whenever at most 10
files are submitted and stores exactly the files passing validation,
silently skipping the rest; the single upload fails iff its file fails
validation. -/
theorem upload_multiple_validation_skip (gen : ℕ → String) (files : List UploadFile)
    (h : files.length ≤ 10) :
    (∃ rs, upload_multiple_images gen files = Except.ok rs ∧
      rs.map (fun r => (r.size, r.content_type)) =
        (files.filter isValidUpload).map fun f => (f.size, f.content_type)) ∧
    (∀ hex f, exceptIsOk (upload_image hex f) = isValidUpload f) := by
  constructor
  · refine ⟨uploadLoop gen 0 files, ?_, uploadLoop_filter gen files 0⟩
    unfold upload_multiple_images
    rw [if_neg (by omega)]
  · intro hex f
    by_cases h1 : f.content_type ∈ allowedImageTypes
    · by_cases h2 : maxUploadBytes < f.size
      · simp [upload_image, h1, h2, isValidUpload, exceptIsOk, Nat.not_le.mpr h2]
      · simp [upload_image, h1, h2, isValidUpload, exceptIsOk, Nat.not_lt.mp h2]
    · simp [upload_image, h1, isValidUpload, exceptIsOk]

/-- C6 counterexample: a batch with one invalid file succeeds and stores
only the valid subset. -/
theorem upload_multiple_subset_cex :
    isValidUpload c6Bad = false ∧ isValidUpload c6Good = true ∧
    upload_multiple_images (fun _ => "aabb") [c6Good, c6Bad] =
      Except.ok [mkUploadResponse "aabb" c6Good] ∧
    [mkUploadResponse "aabb" c6Good].length < [c6Good, c6Bad].length := by decide

/-- Witness instantiating C6 at a singleton batch. -/
theorem upload_multiple_validation_skip_witness :
    ∃ rs, upload_multiple_images (fun _ => "aabb") [c6Good] = Except.ok rs ∧
      rs.map (fun r => (r.size, r.content_type)) =
        ([c6Good].filter isValidUpload).map fun f => (f.size, f.content_type) :=
  (upload_multiple_validation_skip (fun _ => "aabb") [c6Good] (by decide)).1



theorem updateOneProductById_apply (pid : String) (f : Product → Product) (st : Store) :
    updateOneProductById pid f st =
      match st.products.find? fun p => p.id == pid with
      | none => (Except.ok (false, false), st)
      | some p =>
        (Except.ok (true, decide (f p ≠ p)),
         { st with products := replaceFirstBy (fun q => q.id == pid) f st.products }) := rfl

theorem updateOneOrderById_apply (oid : String) (f : Order → Order) (st : Store) :
    updateOneOrderById oid f st =
      match st.orders.find? fun o => o.id == oid with
      | none => (Except.ok (false, false), st)
      | some o =>
        (Except.ok (true, decide (f o ≠ o)),
         { st with orders := replaceFirstBy (fun q => q.id == oid) f st.orders }) := rfl

theorem findOneOrderById_apply (oid : String) (st : Store) :
    findOneOrderById oid st =
      (Except.ok (st.orders.find? fun o => o.id == oid), st) := rfl

theorem find?_replaceFirstBy {α : Type} (q : α → Bool) (f : α → α) (l : List α) (x : α)
    (hfind : l.find? q = some x) (hpres : q (f x) = true) :
    (replaceFirstBy q f l).find? q = some (f x) := by
  induction l with
  | nil => simp at hfind
  | cons a as ih =>
    by_cases h : q a
    · rw [List.find?_cons_of_pos _ h] at hfind
      obtain rfl : a = x := by injection hfind
      simp [replaceFirstBy, h, List.find?_cons_of_pos _ hpres]
    · rw [List.find?_cons_of_neg _ h] at hfind
      simp [replaceFirstBy, h, List.find?_cons_of_neg _ h, ih hfind]

theorem get_product_with_category_none (pid : String) (st : Store)
    (h : (st.products.find? fun q => q.id == pid) = none) :
    get_product_with_category pid st = (Except.ok none, st) := by
  simp only [get_product_with_category, h]

theorem get_product_with_category_some (pid : String) (st : Store) (p : Product)
    (h : (st.products.find? fun q => q.id == pid) = some p) :
    ∃ d, get_product_with_category pid st = (Except.ok (some d), st) ∧ d.product = p := by
  simp only [get_product_with_category, h]
  by_cases hc : p.category_id ≠ ""
  · rw [if_pos hc]
    cases hcat : st.categories.find? fun c => c.id == p.category_id with
    | none => simp only [hcat]; exact ⟨⟨p, none⟩, rfl, rfl⟩
    | some c => simp only [hcat]; exact ⟨⟨p, some c.name⟩, rfl, rfl⟩
  · rw [if_neg hc]
    exact ⟨⟨p, none⟩, rfl, rfl⟩




theorem update_order_status_none_iff (st : Store) (oid s : String)
    (tn : Option String) (now : ℤ) :
    (update_order_status oid s tn now st).1 = Except.ok none ↔
      (st.orders.find? fun o => o.id == oid) = none ∨
        ∃ o, (st.orders.find? fun o2 => o2.id == oid) = some o ∧
          applyOrderStatusSet s tn now o = o := by
  cases hfo : st.orders.find? fun o => o.id == oid with
  | none =>
    have hres : update_order_status oid s tn now st = (Except.ok none, st) := by
      simp only [update_order_status, dbm_bind_apply, updateOneOrderById_apply, hfo]
      rfl
    rw [hres]
    simp
  | some o =>
    by_cases hno : applyOrderStatusSet s tn now o = o
    · have hres : update_order_status oid s tn now st =
          (Except.ok none, orderSetStore oid s tn now st) := by
        simp only [update_order_status, dbm_bind_apply, updateOneOrderById_apply, hfo]
        simp [hno, orderSetStore, dbm_pure_apply]
      rw [hres]
      exact ⟨fun _ => Or.inr ⟨o, rfl, hno⟩, fun _ => rfl⟩
    · have hpres : ((applyOrderStatusSet s tn now o).id == oid) = true := by
        have := List.find?_some hfo
        simpa [applyOrderStatusSet] using this
      have hfind2 : ((orderSetStore oid s tn now st).orders.find?
          fun o2 => o2.id == oid) = some (applyOrderStatusSet s tn now o) :=
        find?_replaceFirstBy _ _ _ _ hfo hpres
      have hres : update_order_status oid s tn now st =
          (Except.ok (some (applyOrderStatusSet s tn now o)),
            orderSetStore oid s tn now st) := by
        simp only [update_order_status, dbm_bind_apply, updateOneOrderById_apply, hfo]
        simp only [orderSetStore] at hfind2
        simp [hno, findOneOrderById_apply, hfind2, orderSetStore, dbm_pure_apply]
      rw [hres]
      constructor
      · intro hcontra
        simp at hcontra
      · intro hcontra
        rcases hcontra with h1 | ⟨o2, ho2, hno2⟩
        · cases h1
        · injection ho2 with ho2
          subst ho2
          exact absurd hno2 hno



theorem update_product_empty_run (st : Store) (pid : String) (u : ProductUpdate)
    (now : ℤ) (hemp : u.isEmptyUpdate = true) :
    update_product pid u now st = get_product_with_category pid st := by
  simp only [update_product, hemp]
  rfl

theorem update_product_notfound_run (st : Store) (pid : String) (u : ProductUpdate)
    (now : ℤ) (hemp : u.isEmptyUpdate = false)
    (hfp : (st.products.find? fun q => q.id == pid) = none) :
    update_product pid u now st = (Except.ok none, st) := by
  simp [update_product, hemp, dbm_bind_apply, updateOneProductById_apply, hfp,
    dbm_pure_apply]

theorem update_product_noop_run (st : Store) (pid : String) (u : ProductUpdate)
    (now : ℤ) (p : Product) (hemp : u.isEmptyUpdate = false)
    (hfp : (st.products.find? fun q => q.id == pid) = some p)
    (hno : applyProductSet u now p = p) :
    update_product pid u now st = (Except.ok none, productSetStore pid u now st) := by
  simp [update_product, hemp, dbm_bind_apply, updateOneProductById_apply, hfp, hno,
    dbm_pure_apply, productSetStore]

theorem update_product_changed_run (st : Store) (pid : String) (u : ProductUpdate)
    (now : ℤ) (p : Product) (hemp : u.isEmptyUpdate = false)
    (hfp : (st.products.find? fun q => q.id == pid) = some p)
    (hne : applyProductSet u now p ≠ p) :
    update_product pid u now st =
      get_product_with_category pid (productSetStore pid u now st) := by
  simp [update_product, hemp, dbm_bind_apply, updateOneProductById_apply, hfp, hne,
    productSetStore]

theorem find?_productSetStore (st : Store) (pid : String) (u : ProductUpdate)
    (now : ℤ) (p : Product)
    (hfp : (st.products.find? fun q => q.id == pid) = some p) :
    ((productSetStore pid u now st).products.find? fun q => q.id == pid) =
      some (applyProductSet u now p) := by
  have hpres : ((applyProductSet u now p).id == pid) = true := by
    have := List.find?_some hfp
    simpa [applyProductSet] using this
  exact find?_replaceFirstBy _ _ _ _ hfp hpres



theorem route_update_product_404_iff_aux (st : Store) (pid : String)
    (u : ProductUpdate) (now : ℤ) :
    (route_update_product pid u now st).1 = Except.error ⟨404, "Product not found"⟩ ↔
      (st.products.find? fun q => q.id == pid) = none ∨
        (u.isEmptyUpdate = false ∧
          ∃ p, (st.products.find? fun q => q.id == pid) = some p ∧
            applyProductSet u now p = p) := by
  by_cases hemp : u.isEmptyUpdate = true
  · have hup := update_product_empty_run st pid u now hemp
    cases hfp : st.products.find? fun q => q.id == pid with
    | none =>
      have hget := get_product_with_category_none pid st hfp
      have hroute : (route_update_product pid u now st).1 =
          Except.error ⟨404, "Product not found"⟩ := by
        simp only [route_update_product, hup, hget]
      rw [hroute]
      exact ⟨fun _ => Or.inl rfl, fun _ => rfl⟩
    | some p =>
      obtain ⟨d, hd, hdp⟩ := get_product_with_category_some pid st p hfp
      have hroute : (route_update_product pid u now st).1 = Except.ok d := by
        simp only [route_update_product, hup, hd]
      rw [hroute]
      constructor
      · intro h
        cases h
      · intro h
        rcases h with h1 | ⟨hne, _⟩
        · cases h1
        · rw [hemp] at hne
          cases hne
  · have hemp' : u.isEmptyUpdate = false := by
      cases h : u.isEmptyUpdate
      · rfl
      · exact absurd h hemp
    cases hfp : st.products.find? fun q => q.id == pid with
    | none =>
      have hres := update_product_notfound_run st pid u now hemp' hfp
      have hroute : (route_update_product pid u now st).1 =
          Except.error ⟨404, "Product not found"⟩ := by
        simp only [route_update_product, hres]
      rw [hroute]
      exact ⟨fun _ => Or.inl rfl, fun _ => rfl⟩
    | some p =>
      by_cases hno : applyProductSet u now p = p
      · have hres := update_product_noop_run st pid u now p hemp' hfp hno
        have hroute : (route_update_product pid u now st).1 =
            Except.error ⟨404, "Product not found"⟩ := by
          simp only [route_update_product, hres]
        rw [hroute]
        exact ⟨fun _ => Or.inr ⟨hemp', p, rfl, hno⟩, fun _ => rfl⟩
      · have hres := update_product_changed_run st pid u now p hemp' hfp hno
        obtain ⟨d, hd, hdp⟩ := get_product_with_category_some pid
          (productSetStore pid u now st) (applyProductSet u now p)
          (find?_productSetStore st pid u now p hfp)
        have hroute : (route_update_product pid u now st).1 = Except.ok d := by
          simp only [route_update_product, hres, hd]
        rw [hroute]
        constructor
        · intro h
          cases h
        · intro h
          rcases h with h1 | ⟨_, p2, hp2, hno2⟩
          · cases h1
          · injection hp2 with hp2
            subst hp2
            exact absurd hno2 hno

theorem route_update_product_ok_changed (st : Store) (pid : String)
    (u : ProductUpdate) (now : ℤ) (p : Product)
    (hfp : (st.products.find? fun q => q.id == pid) = some p)
    (hemp : u.isEmptyUpdate = false) (hne : applyProductSet u now p ≠ p) :
    ∃ d, (route_update_product pid u now st).1 = Except.ok d ∧
      d.product = applyProductSet u now p := by
  have hres := update_product_changed_run st pid u now p hemp hfp hne
  obtain ⟨d, hd, hdp⟩ := get_product_with_category_some pid
    (productSetStore pid u now st) (applyProductSet u now p)
    (find?_productSetStore st pid u now p hfp)
  refine ⟨d, ?_, hdp⟩
  simp only [route_update_product, hres, hd]

theorem route_update_product_ok_empty (st : Store) (pid : String)
    (u : ProductUpdate) (now : ℤ) (p : Product)
    (hfp : (st.products.find? fun q => q.id == pid) = some p)
    (hemp : u.isEmptyUpdate = true) :
    ∃ d, (route_update_product pid u now st).1 = Except.ok d ∧ d.product = p := by
  have hup := update_product_empty_run st pid u now hemp
  obtain ⟨d, hd, hdp⟩ := get_product_with_category_some pid st p hfp
  refine ⟨d, ?_, hdp⟩
  simp only [route_update_product, hup, hd]

theorem findOneCategoryById_apply (cid : String) (st : Store) :
    findOneCategoryById cid st =
      (Except.ok (st.categories.find? fun c => c.id == cid), st) := rfl

theorem updateOneCategoryById_apply (cid : String) (f : Category → Category) (st : Store) :
    updateOneCategoryById cid f st =
      match st.categories.find? fun c => c.id == cid with
      | none => (Except.ok (false, false), st)
      | some c =>
        (Except.ok (true, decide (f c ≠ c)),
         { st with categories := replaceFirstBy (fun q => q.id == cid) f st.categories }) := rfl

theorem update_category_empty_run (st : Store) (cid : String) (cu : CategoryUpdate)
    (now : ℤ) (hemp : cu.isEmptyUpdate = true) :
    update_category cid cu now st =
      (Except.ok (st.categories.find? fun c => c.id == cid), st) := by
  simp only [update_category, hemp]
  rfl

theorem update_category_notfound_run (st : Store) (cid : String) (cu : CategoryUpdate)
    (now : ℤ) (hemp : cu.isEmptyUpdate = false)
    (hfc : (st.categories.find? fun c => c.id == cid) = none) :
    update_category cid cu now st = (Except.ok none, st) := by
  simp [update_category, hemp, dbm_bind_apply, updateOneCategoryById_apply, hfc,
    dbm_pure_apply]

theorem update_category_noop_run (st : Store) (cid : String) (cu : CategoryUpdate)
    (now : ℤ) (c : Category) (hemp : cu.isEmptyUpdate = false)
    (hfc : (st.categories.find? fun q => q.id == cid) = some c)
    (hno : applyCategorySet cu now c = c) :
    update_category cid cu now st = (Except.ok none, categorySetStore cid cu now st) := by
  simp [update_category, hemp, dbm_bind_apply, updateOneCategoryById_apply, hfc, hno,
    dbm_pure_apply, categorySetStore]

theorem find?_categorySetStore (st : Store) (cid : String) (cu : CategoryUpdate)
    (now : ℤ) (c : Category)
    (hfc : (st.categories.find? fun q => q.id == cid) = some c) :
    ((categorySetStore cid cu now st).categories.find? fun q => q.id == cid) =
      some (applyCategorySet cu now c) := by
  have hpres : ((applyCategorySet cu now c).id == cid) = true := by
    have := List.find?_some hfc
    simpa [applyCategorySet] using this
  exact find?_replaceFirstBy _ _ _ _ hfc hpres

theorem update_category_changed_run (st : Store) (cid : String) (cu : CategoryUpdate)
    (now : ℤ) (c : Category) (hemp : cu.isEmptyUpdate = false)
    (hfc : (st.categories.find? fun q => q.id == cid) = some c)
    (hne : applyCategorySet cu now c ≠ c) :
    update_category cid cu now st =
      (Except.ok (some (applyCategorySet cu now c)), categorySetStore cid cu now st) := by
  have hfind2 := find?_categorySetStore st cid cu now c hfc
  simp only [categorySetStore] at hfind2
  simp [update_category, hemp, dbm_bind_apply, updateOneCategoryById_apply, hfc, hne,
    findOneCategoryById_apply, hfind2, categorySetStore]

theorem route_update_category_404_iff_aux (st : Store) (cid : String)
    (cu : CategoryUpdate) (now : ℤ) :
    (route_update_category cid cu now st).1 = Except.error ⟨404, "Category not found"⟩ ↔
      (st.categories.find? fun c => c.id == cid) = none ∨
        (cu.isEmptyUpdate = false ∧
          ∃ c, (st.categories.find? fun q => q.id == cid) = some c ∧
            applyCategorySet cu now c = c) := by
  by_cases hemp : cu.isEmptyUpdate = true
  · have hup := update_category_empty_run st cid cu now hemp
    cases hfc : st.categories.find? fun c => c.id == cid with
    | none =>
      have hroute : (route_update_category cid cu now st).1 =
          Except.error ⟨404, "Category not found"⟩ := by
        simp only [route_update_category, hup, hfc]
      rw [hroute]
      exact ⟨fun _ => Or.inl rfl, fun _ => rfl⟩
    | some c =>
      have hroute : (route_update_category cid cu now st).1 = Except.ok c := by
        simp only [route_update_category, hup, hfc]
      rw [hroute]
      constructor
      · intro h
        cases h
      · intro h
        rcases h with h1 | ⟨hne, _⟩
        · cases h1
        · rw [hemp] at hne
          cases hne
  · have hemp' : cu.isEmptyUpdate = false := by
      cases h : cu.isEmptyUpdate
      · rfl
      · exact absurd h hemp
    cases hfc : st.categories.find? fun c => c.id == cid with
    | none =>
      have hres := update_category_notfound_run st cid cu now hemp' hfc
      have hroute : (route_update_category cid cu now st).1 =
          Except.error ⟨404, "Category not found"⟩ := by
        simp only [route_update_category, hres]
      rw [hroute]
      exact ⟨fun _ => Or.inl rfl, fun _ => rfl⟩
    | some c =>
      by_cases hno : applyCategorySet cu now c = c
      · have hres := update_category_noop_run st cid cu now c hemp' hfc hno
        have hroute : (route_update_category cid cu now st).1 =
            Except.error ⟨404, "Category not found"⟩ := by
          simp only [route_update_category, hres]
        rw [hroute]
        exact ⟨fun _ => Or.inr ⟨hemp', c, rfl, hno⟩, fun _ => rfl⟩
      · have hres := update_category_changed_run st cid cu now c hemp' hfc hno
        have hroute : (route_update_category cid cu now st).1 =
            Except.ok (applyCategorySet cu now c) := by
          simp only [route_update_category, hres]
        rw [hroute]
        constructor
        · intro h
          cases h
        · intro h
          rcases h with h1 | ⟨_, c2, hc2, hno2⟩
          · cases h1
          · injection hc2 with hc2
            subst hc2
            exact absurd hno2 hno

theorem route_update_category_ok_changed (st : Store) (cid : String)
    (cu : CategoryUpdate) (now : ℤ) (c : Category)
    (hfc : (st.categories.find? fun q => q.id == cid) = some c)
    (hemp : cu.isEmptyUpdate = false) (hne : applyCategorySet cu now c ≠ c) :
    (route_update_category cid cu now st).1 = Except.ok (applyCategorySet cu now c) := by
  have hres := update_category_changed_run st cid cu now c hemp hfc hne
  simp only [route_update_category, hres]

theorem route_update_category_ok_empty (st : Store) (cid : String)
    (cu : CategoryUpdate) (now : ℤ) (c : Category)
    (hfc : (st.categories.find? fun q => q.id == cid) = some c)
    (hemp : cu.isEmptyUpdate = true) :
    (route_update_category cid cu now st).1 = Except.ok c := by
  have hup := update_category_empty_run st cid cu now hemp
  simp only [route_update_category, hup, hfc]

theorem findOnePromotionById_apply (promo_id : String) (st : Store) :
    findOnePromotionById promo_id st =
      (Except.ok (st.promotions.find? fun p => p.id == promo_id), st) := rfl

theorem updateOnePromotionById_apply (promo_id : String)
    (f : Promotion → Promotion) (st : Store) :
    updateOnePromotionById promo_id f st =
      match st.promotions.find? fun p => p.id == promo_id with
      | none => (Except.ok (false, false), st)
      | some p =>
        (Except.ok (true, decide (f p ≠ p)),
         { st with promotions := replaceFirstBy (fun q => q.id == promo_id) f st.promotions }) := rfl

theorem update_promotion_empty_run (st : Store) (promo_id : String)
    (pu : PromotionUpdate) (now : ℤ) (hemp : pu.isEmptyUpdate = true) :
    update_promotion promo_id pu now st =
      (Except.ok (st.promotions.find? fun p => p.id == promo_id), st) := by
  simp only [update_promotion, hemp]
  rfl

theorem update_promotion_notfound_run (st : Store) (promo_id : String)
    (pu : PromotionUpdate) (now : ℤ) (hemp : pu.isEmptyUpdate = false)
    (hfp : (st.promotions.find? fun p => p.id == promo_id) = none) :
    update_promotion promo_id pu now st = (Except.ok none, st) := by
  simp [update_promotion, hemp, dbm_bind_apply, updateOnePromotionById_apply, hfp,
    dbm_pure_apply]

theorem update_promotion_noop_run (st : Store) (promo_id : String)
    (pu : PromotionUpdate) (now : ℤ) (p : Promotion) (hemp : pu.isEmptyUpdate = false)
    (hfp : (st.promotions.find? fun q => q.id == promo_id) = some p)
    (hno : applyPromotionSet pu now p = p) :
    update_promotion promo_id pu now st =
      (Except.ok none, promotionSetStore promo_id pu now st) := by
  simp [update_promotion, hemp, dbm_bind_apply, updateOnePromotionById_apply, hfp, hno,
    dbm_pure_apply, promotionSetStore]

theorem find?_promotionSetStore (st : Store) (promo_id : String)
    (pu : PromotionUpdate) (now : ℤ) (p : Promotion)
    (hfp : (st.promotions.find? fun q => q.id == promo_id) = some p) :
    ((promotionSetStore promo_id pu now st).promotions.find?
      fun q => q.id == promo_id) = some (applyPromotionSet pu now p) := by
  have hpres : ((applyPromotionSet pu now p).id == promo_id) = true := by
    have := List.find?_some hfp
    simpa [applyPromotionSet] using this
  exact find?_replaceFirstBy _ _ _ _ hfp hpres

theorem update_promotion_changed_run (st : Store) (promo_id : String)
    (pu : PromotionUpdate) (now : ℤ) (p : Promotion) (hemp : pu.isEmptyUpdate = false)
    (hfp : (st.promotions.find? fun q => q.id == promo_id) = some p)
    (hne : applyPromotionSet pu now p ≠ p) :
    update_promotion promo_id pu now st =
      (Except.ok (some (applyPromotionSet pu now p)),
        promotionSetStore promo_id pu now st) := by
  have hfind2 := find?_promotionSetStore st promo_id pu now p hfp
  simp only [promotionSetStore] at hfind2
  simp [update_promotion, hemp, dbm_bind_apply, updateOnePromotionById_apply, hfp, hne,
    findOnePromotionById_apply, hfind2, promotionSetStore]

theorem route_update_promotion_404_iff_aux (st : Store) (promo_id : String)
    (pu : PromotionUpdate) (now : ℤ) :
    (route_update_promotion promo_id pu now st).1 =
        Except.error ⟨404, "Promotion not found"⟩ ↔
      (st.promotions.find? fun p => p.id == promo_id) = none ∨
        (pu.isEmptyUpdate = false ∧
          ∃ p, (st.promotions.find? fun q => q.id == promo_id) = some p ∧
            applyPromotionSet pu now p = p) := by
  by_cases hemp : pu.isEmptyUpdate = true
  · have hup := update_promotion_empty_run st promo_id pu now hemp
    cases hfp : st.promotions.find? fun p => p.id == promo_id with
    | none =>
      have hroute : (route_update_promotion promo_id pu now st).1 =
          Except.error ⟨404, "Promotion not found"⟩ := by
        simp only [route_update_promotion, hup, hfp]
      rw [hroute]
      exact ⟨fun _ => Or.inl rfl, fun _ => rfl⟩
    | some p =>
      have hroute : (route_update_promotion promo_id pu now st).1 = Except.ok p := by
        simp only [route_update_promotion, hup, hfp]
      rw [hroute]
      constructor
      · intro h
        cases h
      · intro h
        rcases h with h1 | ⟨hne, _⟩
        · cases h1
        · rw [hemp] at hne
          cases hne
  · have hemp' : pu.isEmptyUpdate = false := by
      cases h : pu.isEmptyUpdate
      · rfl
      · exact absurd h hemp
    cases hfp : st.promotions.find? fun p => p.id == promo_id with
    | none =>
      have hres := update_promotion_notfound_run st promo_id pu now hemp' hfp
      have hroute : (route_update_promotion promo_id pu now st).1 =
          Except.error ⟨404, "Promotion not found"⟩ := by
        simp only [route_update_promotion, hres]
      rw [hroute]
      exact ⟨fun _ => Or.inl rfl, fun _ => rfl⟩
    | some p =>
      by_cases hno : applyPromotionSet pu now p = p
      · have hres := update_promotion_noop_run st promo_id pu now p hemp' hfp hno
        have hroute : (route_update_promotion promo_id pu now st).1 =
            Except.error ⟨404, "Promotion not found"⟩ := by
          simp only [route_update_promotion, hres]
        rw [hroute]
        exact ⟨fun _ => Or.inr ⟨hemp', p, rfl, hno⟩, fun _ => rfl⟩
      · have hres := update_promotion_changed_run st promo_id pu now p hemp' hfp hno
        have hroute : (route_update_promotion promo_id pu now st).1 =
            Except.ok (applyPromotionSet pu now p) := by
          simp only [route_update_promotion, hres]
        rw [hroute]
        constructor
        · intro h
          cases h
        · intro h
          rcases h with h1 | ⟨_, p2, hp2, hno2⟩
          · cases h1
          · injection hp2 with hp2
            subst hp2
            exact absurd hno2 hno

theorem route_update_promotion_ok_changed (st : Store) (promo_id : String)
    (pu : PromotionUpdate) (now : ℤ) (p : Promotion)
    (hfp : (st.promotions.find? fun q => q.id == promo_id) = some p)
    (hemp : pu.isEmptyUpdate = false) (hne : applyPromotionSet pu now p ≠ p) :
    (route_update_promotion promo_id pu now st).1 =
      Except.ok (applyPromotionSet pu now p) := by
  have hres := update_promotion_changed_run st promo_id pu now p hemp hfp hne
  simp only [route_update_promotion, hres]

theorem route_update_promotion_ok_empty (st : Store) (promo_id : String)
    (pu : PromotionUpdate) (now : ℤ) (p : Promotion)
    (hfp : (st.promotions.find? fun q => q.id == promo_id) = some p)
    (hemp : pu.isEmptyUpdate = true) :
    (route_update_promotion promo_id pu now st).1 = Except.ok p := by
  have hup := update_promotion_empty_run st promo_id pu now hemp
  simp only [route_update_promotion, hup, hfp]

theorem findOneUserById_apply (uid : String) (st : Store) :
    findOneUserById uid st =
      (Except.ok (st.users.find? fun us => us.id == uid), st) := rfl

theorem updateOneUserById_apply (uid : String) (f : User → User) (st : Store) :
    updateOneUserById uid f st =
      match st.users.find? fun us => us.id == uid with
      | none => (Except.ok (false, false), st)
      | some us =>
        (Except.ok (true, decide (f us ≠ us)),
         { st with users := replaceFirstBy (fun q => q.id == uid) f st.users }) := rfl

theorem update_user_role_notfound_run (st : Store) (uid role : String) (now : ℤ)
    (hfu : (st.users.find? fun us => us.id == uid) = none) :
    update_user_role uid role now st = (Except.ok none, st) := by
  simp only [update_user_role, dbm_bind_apply, updateOneUserById_apply, hfu]
  rfl

theorem update_user_role_noop_run (st : Store) (uid role : String) (now : ℤ)
    (us : User) (hfu : (st.users.find? fun q => q.id == uid) = some us)
    (hno : applyUserRoleSet role now us = us) :
    update_user_role uid role now st = (Except.ok none, userSetStore uid role now st) := by
  simp [update_user_role, dbm_bind_apply, updateOneUserById_apply, hfu, hno,
    dbm_pure_apply, userSetStore]

theorem find?_userSetStore (st : Store) (uid role : String) (now : ℤ) (us : User)
    (hfu : (st.users.find? fun q => q.id == uid) = some us) :
    ((userSetStore uid role now st).users.find? fun q => q.id == uid) =
      some (applyUserRoleSet role now us) := by
  have hpres : ((applyUserRoleSet role now us).id == uid) = true := by
    have := List.find?_some hfu
    simpa [applyUserRoleSet] using this
  exact find?_replaceFirstBy _ _ _ _ hfu hpres

theorem update_user_role_changed_run (st : Store) (uid role : String) (now : ℤ)
    (us : User) (hfu : (st.users.find? fun q => q.id == uid) = some us)
    (hne : applyUserRoleSet role now us ≠ us) :
    update_user_role uid role now st =
      (Except.ok (some (applyUserRoleSet role now us)), userSetStore uid role now st) := by
  have hfind2 := find?_userSetStore st uid role now us hfu
  simp only [userSetStore] at hfind2
  simp [update_user_role, dbm_bind_apply, updateOneUserById_apply, hfu, hne,
    findOneUserById_apply, hfind2, userSetStore]

theorem route_update_user_role_404_iff_aux (st : Store) (uid role : String)
    (now : ℤ) (hrole : role ∈ validUserRoles) :
    (route_update_user_role uid role now st).1 = Except.error ⟨404, "User not found"⟩ ↔
      (st.users.find? fun us => us.id == uid) = none ∨
        ∃ us, (st.users.find? fun q => q.id == uid) = some us ∧
          applyUserRoleSet role now us = us := by
  have hguard : ¬ (role ∉ validUserRoles) := fun hc => hc hrole
  cases hfu : st.users.find? fun us => us.id == uid with
  | none =>
    have hres := update_user_role_notfound_run st uid role now hfu
    have hroute : (route_update_user_role uid role now st).1 =
        Except.error ⟨404, "User not found"⟩ := by
      simp only [route_update_user_role]
      rw [if_neg hguard, hres]
    rw [hroute]
    exact ⟨fun _ => Or.inl rfl, fun _ => rfl⟩
  | some us =>
    by_cases hno : applyUserRoleSet role now us = us
    · have hres := update_user_role_noop_run st uid role now us hfu hno
      have hroute : (route_update_user_role uid role now st).1 =
          Except.error ⟨404, "User not found"⟩ := by
        simp only [route_update_user_role]
        rw [if_neg hguard, hres]
      rw [hroute]
      exact ⟨fun _ => Or.inr ⟨us, rfl, hno⟩, fun _ => rfl⟩
    · have hres := update_user_role_changed_run st uid role now us hfu hno
      have hroute : (route_update_user_role uid role now st).1 =
          Except.ok (applyUserRoleSet role now us) := by
        simp only [route_update_user_role]
        rw [if_neg hguard, hres]
      rw [hroute]
      constructor
      · intro h
        cases h
      · intro h
        rcases h with h1 | ⟨us2, hu2, hno2⟩
        · cases h1
        · injection hu2 with hu2
          subst hu2
          exact absurd hno2 hno

theorem route_update_user_role_ok_changed (st : Store) (uid role : String)
    (now : ℤ) (us : User) (hrole : role ∈ validUserRoles)
    (hfu : (st.users.find? fun q => q.id == uid) = some us)
    (hne : applyUserRoleSet role now us ≠ us) :
    (route_update_user_role uid role now st).1 =
      Except.ok (applyUserRoleSet role now us) := by
  have hguard : ¬ (role ∉ validUserRoles) := fun hc => hc hrole
  have hres := update_user_role_changed_run st uid role now us hfu hne
  simp only [route_update_user_role]
  rw [if_neg hguard, hres]

/-- C7 (amended): the product update endpoint returns 404 exactly when no
product with the id exists OR the payload is nonempty and the $set leaves
the stored document byte-identical (possible only when every payload field
equals the stored value and the new updated_at equals the stored one),
because the service checks modified_count rather than matched_count;
whenever the $set actually changes the document the updated document is
returned, and an empty payload returns the stored document.  Likewise the
category, promotion and user-role update endpoints 404 exactly when no
matching document exists or the nonempty $set changes nothing, returning
the updated document otherwise, and the order-status service function
reports not-found under the same modified_count condition. -/
theorem route_update_product_404_iff (st : Store) (pid : String)
    (u : ProductUpdate) (now : ℤ) :
    ((route_update_product pid u now st).1 = Except.error ⟨404, "Product not found"⟩ ↔
      (st.products.find? fun q => q.id == pid) = none ∨
        (u.isEmptyUpdate = false ∧
          ∃ p, (st.products.find? fun q => q.id == pid) = some p ∧
            applyProductSet u now p = p)) ∧
    (∀ p, (st.products.find? fun q => q.id == pid) = some p →
      u.isEmptyUpdate = false → applyProductSet u now p ≠ p →
      ∃ d, (route_update_product pid u now st).1 = Except.ok d ∧
        d.product = applyProductSet u now p) ∧
    (∀ p, (st.products.find? fun q => q.id == pid) = some p → u.isEmptyUpdate = true →
      ∃ d, (route_update_product pid u now st).1 = Except.ok d ∧ d.product = p) ∧
    (∀ (oid status : String) (tn : Option String),
      ((update_order_status oid status tn now st).1 = Except.ok none ↔
        (st.orders.find? fun o => o.id == oid) = none ∨
          ∃ o, (st.orders.find? fun o2 => o2.id == oid) = some o ∧
            applyOrderStatusSet status tn now o = o)) ∧
    (∀ (cid : String) (cu : CategoryUpdate),
      ((route_update_category cid cu now st).1 =
          Except.error ⟨404, "Category not found"⟩ ↔
        (st.categories.find? fun c => c.id == cid) = none ∨
          (cu.isEmptyUpdate = false ∧
            ∃ c, (st.categories.find? fun q => q.id == cid) = some c ∧
              applyCategorySet cu now c = c))) ∧
    (∀ (cid : String) (cu : CategoryUpdate) (c : Category),
      (st.categories.find? fun q => q.id == cid) = some c →
      cu.isEmptyUpdate = false → applyCategorySet cu now c ≠ c →
      (route_update_category cid cu now st).1 = Except.ok (applyCategorySet cu now c)) ∧
    (∀ (cid : String) (cu : CategoryUpdate) (c : Category),
      (st.categories.find? fun q => q.id == cid) = some c → cu.isEmptyUpdate = true →
      (route_update_category cid cu now st).1 = Except.ok c) ∧
    (∀ (promo_id : String) (pu : PromotionUpdate),
      ((route_update_promotion promo_id pu now st).1 =
          Except.error ⟨404, "Promotion not found"⟩ ↔
        (st.promotions.find? fun p => p.id == promo_id) = none ∨
          (pu.isEmptyUpdate = false ∧
            ∃ p, (st.promotions.find? fun q => q.id == promo_id) = some p ∧
              applyPromotionSet pu now p = p))) ∧
    (∀ (promo_id : String) (pu : PromotionUpdate) (p : Promotion),
      (st.promotions.find? fun q => q.id == promo_id) = some p →
      pu.isEmptyUpdate = false → applyPromotionSet pu now p ≠ p →
      (route_update_promotion promo_id pu now st).1 =
        Except.ok (applyPromotionSet pu now p)) ∧
    (∀ (promo_id : String) (pu : PromotionUpdate) (p : Promotion),
      (st.promotions.find? fun q => q.id == promo_id) = some p →
      pu.isEmptyUpdate = true →
      (route_update_promotion promo_id pu now st).1 = Except.ok p) ∧
    (∀ (uid role : String), role ∈ validUserRoles →
      ((route_update_user_role uid role now st).1 =
          Except.error ⟨404, "User not found"⟩ ↔
        (st.users.find? fun us => us.id == uid) = none ∨
          ∃ us, (st.users.find? fun q => q.id == uid) = some us ∧
            applyUserRoleSet role now us = us)) ∧
    (∀ (uid role : String) (us : User), role ∈ validUserRoles →
      (st.users.find? fun q => q.id == uid) = some us →
      applyUserRoleSet role now us ≠ us →
      (route_update_user_role uid role now st).1 =
        Except.ok (applyUserRoleSet role now us)) :=
  ⟨route_update_product_404_iff_aux st pid u now,
   fun p hfp hemp hne => route_update_product_ok_changed st pid u now p hfp hemp hne,
   fun p hfp hemp => route_update_product_ok_empty st pid u now p hfp hemp,
   fun oid s tn => update_order_status_none_iff st oid s tn now,
   fun cid cu => route_update_category_404_iff_aux st cid cu now,
   fun cid cu c hfc hemp hne =>
     route_update_category_ok_changed st cid cu now c hfc hemp hne,
   fun cid cu c hfc hemp => route_update_category_ok_empty st cid cu now c hfc hemp,
   fun promo_id pu => route_update_promotion_404_iff_aux st promo_id pu now,
   fun promo_id pu p hfp hemp hne =>
     route_update_promotion_ok_changed st promo_id pu now p hfp hemp hne,
   fun promo_id pu p hfp hemp =>
     route_update_promotion_ok_empty st promo_id pu now p hfp hemp,
   fun uid role hrole => route_update_user_role_404_iff_aux st uid role now hrole,
   fun uid role us hrole hfu hne =>
     route_update_user_role_ok_changed st uid role now us hrole hfu hne⟩

/-- C7 counterexample: updating an existing product with a payload that
rewrites name to its current value, at a time equal to the stored
updated_at, yields modified_count = 0 and the endpoint returns 404
although the product exists, refuting the claim as stated. -/
theorem route_update_product_noop_404_cex :
    (w3GuardedStore.products.find? fun p => p.id == "prod1") = some w3Prod ∧
    (route_update_product "prod1" c7Update 100 w3GuardedStore).1 =
      Except.error ⟨404, "Product not found"⟩ := by decide

/-- Witness instantiating C7 at updates that change the stored product
name and the stored category name. -/
theorem route_update_product_404_iff_witness :
    (∃ d, (route_update_product "prod1" w7Update 200 w3GuardedStore).1 = Except.ok d ∧
      d.product = applyProductSet w7Update 200 w3Prod) ∧
    (route_update_category "cat1" w7CatUpdate 200 w3GuardedStore).1 =
      Except.ok (applyCategorySet w7CatUpdate 200 w3Cat) := by
  constructor
  · exact (route_update_product_404_iff w3GuardedStore "prod1" w7Update 200).2.1
      w3Prod (by decide) (by decide) (by decide)
  · exact (route_update_product_404_iff w3GuardedStore "prod1" w7Update 200).2.2.2.2.2.1
      "cat1" w7CatUpdate w3Cat (by decide) (by decide) (by decide)

end Polluxkart
